import Mathlib

/-!
# Reservas: duration resolution, pricing and reservation lifecycle

Shallow embedding of `src/js/modules/reservas/reservas.js`.

Conventions of the embedding

* A JavaScript `Date` is its time value: an integer number of milliseconds
  since the epoch, or `none` for an Invalid Date (time value `NaN`).  Every
  operation that stores a time value applies `timeClip` (ECMA-262 `TimeClip`),
  which turns a value outside `±8.64e15` ms into `NaN`.
* The local time zone is a fixed offset `tz` (milliseconds east of UTC); zones
  with daylight-saving transitions are outside the embedding.
* A calendar date is represented by its local day number `day (localTime tz t)`
  and the time of day by `timeWithinDay (localTime tz t)`.
* Numbers that are integers in the program (parsed counts, minutes, guests)
  are `Int`; amounts of money are exact rationals.  `null` database columns are
  `none`.
-/

namespace Reservas

deriving instance DecidableEq for Except

/-! ## JavaScript primitives used by the module -/

/-- Milliseconds per day (ECMA-262 `msPerDay`). -/
def msPerDay : Int := 86400000

/-- Milliseconds per hour (ECMA-262 `msPerHour`). -/
def msPerHour : Int := 3600000

/-- Milliseconds per minute (ECMA-262 `msPerMinute`). -/
def msPerMinute : Int := 60000

/-- Largest magnitude of a time value (ECMA-262: 8.64e15 ms). -/
def maxTime : Int := 8640000000000000

/-- Time value of a `Date` object; `none` is the Invalid Date (`NaN`). -/
abbrev JSDate := Option Int

/-- ECMA-262 `TimeClip`: a time value out of range becomes `NaN`. -/
def timeClip (t : Int) : JSDate :=
  if -maxTime ≤ t ∧ t ≤ maxTime then some t else none

/-- ECMA-262 `LocalTime` for a zone of fixed offset `tz`. -/
def localTime (tz t : Int) : Int := t + tz

/-- ECMA-262 `UTC` for a zone of fixed offset `tz`. -/
def utc (tz t : Int) : Int := t - tz

/-- ECMA-262 `Day(t) = floor(t / msPerDay)`. -/
def day (t : Int) : Int := t / msPerDay

/-- ECMA-262 `TimeWithinDay(t) = t modulo msPerDay`. -/
def timeWithinDay (t : Int) : Int := t % msPerDay

/-- ECMA-262 `MakeTime(hour, min, sec, ms)`. -/
def makeTime (h m s ms : Int) : Int := h * msPerHour + m * msPerMinute + s * 1000 + ms

/-- ECMA-262 `MakeDate(day, time)`. -/
def makeDate (d t : Int) : Int := d * msPerDay + t

/-- The statement `d.setDate(d.getDate() + n)`.  By ECMA-262 `MakeDay`, the day
number of `MakeDay(Year(t), Month(t), Date(t) + n)` is `Day(t) + n`; the time
within the day is kept, and the result goes through `TimeClip`. -/
def setDateGetDatePlus (tz : Int) (d : JSDate) (n : Int) : JSDate :=
  d.bind fun tv =>
    let t := localTime tz tv
    timeClip (utc tz (makeDate (day t + n) (timeWithinDay t)))

/-- The method `d.setHours(hh, mm, ss, ms)`: same local day, new time within
the day, result through `TimeClip`; an Invalid Date stays invalid. -/
def setHours (tz : Int) (d : JSDate) (hh mm ss ms : Int) : JSDate :=
  d.bind fun tv =>
    let t := localTime tz tv
    timeClip (utc tz (makeDate (day t) (makeTime hh mm ss ms)))

/-- The comparison `a <= b` of two `Date` objects: numeric comparison of the
time values, `false` as soon as one of them is `NaN`. -/
def dateLe (a b : JSDate) : Bool :=
  match a, b with
  | some x, some y => decide (x ≤ y)
  | _, _ => false

/-- The comparison `a < b` of two `Date` objects (`false` on `NaN`). -/
def dateLt (a b : JSDate) : Bool :=
  match a, b with
  | some x, some y => decide (x < y)
  | _, _ => false

/-- White space of ECMA-262 (`WhiteSpace` and `LineTerminator`): the code points
that `trim` removes and that `parseInt` skips. -/
def isJsWhitespace (c : Char) : Bool :=
  let n := c.toNat
  n == 0x09 || n == 0x0A || n == 0x0B || n == 0x0C || n == 0x0D || n == 0x20 || n == 0xA0
    || n == 0x1680 || (decide (0x2000 ≤ n) && decide (n ≤ 0x200A)) || n == 0x2028
    || n == 0x2029 || n == 0x202F || n == 0x205F || n == 0x3000 || n == 0xFEFF

/-- Value of a run of decimal digits. -/
def digitsValue (ds : List Char) : Nat :=
  ds.foldl (fun acc c => 10 * acc + (c.toNat - 48)) 0

/-- The builtin `parseInt(s)` on a decimal string: leading white space is
skipped, an optional sign is read, then the longest run of decimal digits;
`none` is `NaN` (no digit).  Strings with a hexadecimal prefix and values
beyond 2^53 are outside the embedding. -/
def parseInt (s : String) : Option Int :=
  let cs := s.toList.dropWhile isJsWhitespace
  let neg := cs.head? == some '-'
  let body := if cs.head? == some '-' || cs.head? == some '+' then cs.tail else cs
  let ds := body.takeWhile Char.isDigit
  if ds.isEmpty then none
  else if neg then some (-(digitsValue ds : Int)) else some (digitsValue ds : Int)

/-- The expression `parseInt(s) || 1`: `NaN` and `0` are falsy. -/
def parseIntOr1 (s : String) : Int :=
  match parseInt s with
  | none => 1
  | some n => if n = 0 then 1 else n

/-- The expression `x || 0` on a nullable numeric column. -/
def orZero (x : Option ℚ) : ℚ := x.getD 0

/-- ECMA-262 `ToNumber` on a nullable integer column (`null` converts to 0). -/
def toNumber (x : Option Int) : Int := x.getD 0

/-- The builtin `Math.round`: nearest integer, ties towards plus infinity. -/
def mathRound (x : ℚ) : Int := ⌊x + 1 / 2⌋

/-! ## Module state and catalog -/

/-- A row of `tiempos_estancia` as selected by `cargarTiemposEstancia`
(`id, nombre, minutos, precio`); a `null` column is `none` (its `typeof` is
not `'number'`). -/
structure TiempoEstancia where
  id : String
  nombre : String
  minutos : Option Int
  precio : Option ℚ
  deriving DecidableEq

/-- The lookup `state.tiemposEstanciaDisponibles.find(ts => ts.id === id)`. -/
def findTiempo (tiempos : List TiempoEstancia) (id : String) : Option TiempoEstancia :=
  tiempos.find? fun ts => ts.id == id

/-! ## calculateFechasEstancia -/

/-- The three `errorFechas` messages of `calculateFechasEstancia`:
"La fecha de entrada proporcionada no es válida.",
"Tiempo de estancia predefinido no válido.",
"La fecha de salida debe ser posterior a la de llegada." -/
inductive ErrorFechas where
  | fechaEntradaNoValida
  | tiempoEstanciaNoValido
  | salidaNoPosterior
  deriving DecidableEq, Repr

/-- The object returned by `calculateFechasEstancia` when `errorFechas` is
`null`. -/
structure FechasEstancia where
  fechaEntrada : JSDate
  fechaSalida : JSDate
  tipoDuracionOriginal : String
  cantidadDuracionOriginal : Int
  deriving DecidableEq, Repr

/-- The function `calculateFechasEstancia`.  `fechaEntradaStr` is the instant
the date string denotes (`none` when it does not parse), `hotelCheckoutHora`
is the pair `hotelCheckoutHora.split(':').map(Number)`, and `tiempos` is
`state.tiemposEstanciaDisponibles`. -/
def calculateFechasEstancia (tz : Int) (tiempos : List TiempoEstancia)
    (fechaEntradaStr : Option Int) (tipoCalculo : String) (cantidadNochesStr : String)
    (tiempoEstanciaId : String) (hotelCheckoutHora : Int × Int) :
    Except ErrorFechas FechasEstancia :=
  let fechaEntrada : JSDate := fechaEntradaStr.bind timeClip
  if fechaEntrada.isNone then .error .fechaEntradaNoValida
  else
    let tipoDuracionOriginal := tipoCalculo
    let salida : Except ErrorFechas (JSDate × Int) :=
      if tipoCalculo = "noches_manual" then
        let cantidadDuracionOriginal := parseIntOr1 cantidadNochesStr
        let fechaSalida := setDateGetDatePlus tz fechaEntrada cantidadDuracionOriginal
        let fechaSalida := setHours tz fechaSalida hotelCheckoutHora.1 hotelCheckoutHora.2 0 0
        .ok (fechaSalida, cantidadDuracionOriginal)
      else
        match findTiempo tiempos tiempoEstanciaId with
        | none => .error .tiempoEstanciaNoValido
        | some tiempo =>
          match tiempo.minutos with
          | none => .error .tiempoEstanciaNoValido
          | some minutos =>
            .ok (fechaEntrada.bind fun t => timeClip (t + minutos * 60 * 1000), minutos)
    match salida with
    | .error e => .error e
    | .ok (fechaSalida, cantidadDuracionOriginal) =>
      if dateLe fechaSalida fechaEntrada then .error .salidaNoPosterior
      else .ok { fechaEntrada, fechaSalida, tipoDuracionOriginal, cantidadDuracionOriginal }

/-! ## calculateMontos -/

/-- The columns of `habitaciones` selected by `validateAndCalculateBooking`
(`precio, capacidad_base, capacidad_maxima, precio_huesped_adicional,
permite_reservas_por_horas, precio_base_hora`); `none` is `null`. -/
structure HabitacionInfo where
  precio : Option ℚ
  capacidad_base : Option Int
  capacidad_maxima : Option Int
  precio_huesped_adicional : Option ℚ
  permite_reservas_por_horas : Bool
  precio_base_hora : Option ℚ
  deriving DecidableEq

/-- The two `errorMonto` messages of `calculateMontos`:
"No se pudo determinar el precio para el tiempo de estancia." and
"Huéspedes (h) exceden capacidad máxima (c).", the latter with the two
interpolated values. -/
inductive ErrorMonto where
  | precioNoDeterminado
  | excedeCapacidad (huespedes : Int) (capacidadMaxima : Option Int)
  deriving DecidableEq

/-- The object returned by `calculateMontos` when `errorMonto` is `null`. -/
structure Montos where
  montoEstanciaBase : ℚ
  montoPorHuespedesAdicionales : ℚ
  deriving DecidableEq

/-- The function `esTiempoEstanciaNoches`: an empty id is falsy; a `null`
`minutos` compares as 0. -/
def esTiempoEstanciaNoches (tiempos : List TiempoEstancia) (tiempoEstanciaId : String) : Bool :=
  if tiempoEstanciaId = "" then false
  else
    match findTiempo tiempos tiempoEstanciaId with
    | none => false
    | some tiempo =>
      decide (toNumber tiempo.minutos ≥ 22 * 60) && decide (toNumber tiempo.minutos ≤ 26 * 60)

/-- The function `calculateMontos`; `tiempos` is
`state.tiemposEstanciaDisponibles`.  `huespedes` is the result of `parseInt`;
for `NaN` (`none`) both comparisons with the capacities are false. -/
def calculateMontos (tiempos : List TiempoEstancia) (habitacionInfo : HabitacionInfo)
    (huespedes : Option Int) (tipoDuracion : String) (cantDuracion : Int) (tiempoId : String) :
    Except ErrorMonto Montos :=
  let base : Except ErrorMonto ℚ :=
    if tipoDuracion = "noches_manual" then
      .ok (orZero habitacionInfo.precio * cantDuracion)
    else
      match (findTiempo tiempos tiempoId).bind (fun tiempo => tiempo.precio) with
      | some precio =>
        if precio ≥ 0 then .ok precio
        else if orZero habitacionInfo.precio_base_hora > 0 ∧ cantDuracion > 0 then
          .ok (orZero habitacionInfo.precio_base_hora * ((cantDuracion : ℚ) / 60))
        else .error .precioNoDeterminado
      | none =>
        if orZero habitacionInfo.precio_base_hora > 0 ∧ cantDuracion > 0 then
          .ok (orZero habitacionInfo.precio_base_hora * ((cantDuracion : ℚ) / 60))
        else .error .precioNoDeterminado
  match base with
  | .error e => .error e
  | .ok montoEstanciaBase =>
    match huespedes with
    | none => .ok { montoEstanciaBase, montoPorHuespedesAdicionales := 0 }
    | some huespedes =>
      if huespedes > toNumber habitacionInfo.capacidad_maxima then
        .error (.excedeCapacidad huespedes habitacionInfo.capacidad_maxima)
      else if huespedes > toNumber habitacionInfo.capacidad_base then
        let extra := huespedes - toNumber habitacionInfo.capacidad_base
        let factorMultiplicador : Int :=
          if tipoDuracion = "noches_manual" then cantDuracion
          else if tipoDuracion = "tiempo_predefinido"
              ∧ esTiempoEstanciaNoches tiempos tiempoId then
            max 1 (mathRound ((cantDuracion : ℚ) / (24 * 60)))
          else 1
        .ok { montoEstanciaBase,
              montoPorHuespedesAdicionales :=
                extra * orZero habitacionInfo.precio_huesped_adicional * factorMultiplicador }
      else
        .ok { montoEstanciaBase, montoPorHuespedesAdicionales := 0 }

/-! ## Form, module state and backend -/

/-- The method `String.prototype.trim`: white space removed at both ends. -/
def jsTrim (s : String) : String :=
  String.mk ((s.toList.dropWhile isJsWhitespace).reverse.dropWhile isJsWhitespace).reverse

/-- The expression `s || null` on a string: the empty string is falsy. -/
def orNull (s : String) : Option String := if s = "" then none else some s

/-- The comparison `x < n` where `x` is a `parseInt` result (`false` on `NaN`). -/
def numLt (x : Option Int) (n : Int) : Bool :=
  match x with
  | some v => decide (v < n)
  | none => false

/-- The object built by `gatherFormData`: the raw values of the form fields. -/
structure FormData where
  cliente_nombre : String
  telefono : String
  fecha_entrada : String
  tipo_calculo_duracion : String
  cantidad_noches : String
  tiempo_estancia_id : String
  habitacion_id : String
  cantidad_huespedes : String
  metodo_pago_id : String
  monto_abono : String
  notas : String
  deriving DecidableEq

/-- The module-level `state` object (`currentUser` is `state.currentUser.id`;
the backend client `state.supabase` is modelled by `Backend` and `Store`). -/
structure State where
  isEditMode : Bool
  editingReservaId : Option String
  tiemposEstanciaDisponibles : List TiempoEstancia
  currentUser : String
  hotelId : String
  deriving DecidableEq

/-- What the host environment supplies: the local zone offset, `Date.now()`,
the instant denoted by a date string (`none` when `new Date(s)` is invalid)
and the builtin `parseFloat` (`none` is `NaN`). -/
structure Entorno where
  tz : Int
  now : Int
  parseFecha : String → Option Int
  parseFloat : String → Option ℚ

/-- The object `datosReserva` assembled by `validateAndCalculateBooking`.
`fecha_inicio` and `fecha_fin` are the instants that the ISO strings denote.
For `estado`, `hotel_id` and `usuario_id`, `none` means that the property is
absent from the object (`undefined` or deleted); for the other optional fields
`none` is `null`. -/
structure DatosReserva where
  cliente_nombre : String
  telefono : Option String
  cantidad_huespedes : Option Int
  habitacion_id : String
  fecha_inicio : Int
  fecha_fin : Int
  estado : Option String
  hotel_id : Option String
  usuario_id : Option String
  tipo_duracion : String
  cantidad_duracion : Int
  tiempo_estancia_id : Option String
  monto_estancia_base : ℚ
  monto_por_huespedes_adicionales : ℚ
  monto_total : ℚ
  notas : Option String
  origen_reserva : String
  deriving DecidableEq

/-- The object `datosPago` assembled by `validateAndCalculateBooking`. -/
structure DatosPago where
  monto_abono : ℚ
  metodo_pago_id : Option String
  deriving DecidableEq

/-- The value returned by `validateAndCalculateBooking`. -/
structure Payload where
  datosReserva : DatosReserva
  datosPago : DatosPago
  deriving DecidableEq

/-- A row of the table `reservas`: its primary key and its columns. -/
structure Reserva where
  id : String
  datos : DatosReserva
  deriving DecidableEq

/-- A row of the table `pagos_reserva` as inserted by `createBooking`. -/
structure PagoReserva where
  reserva_id : String
  monto : ℚ
  metodo_pago_id : String
  fecha_pago : Int
  hotel_id : String
  usuario_id : String
  deriving DecidableEq

/-- A row of the table `habitaciones`: primary key, state tag and the pricing
columns. -/
structure Habitacion where
  id : String
  estado : String
  info : HabitacionInfo
  deriving DecidableEq

/-- A row of the table `hoteles`; `checkout_hora` is the configured "HH:MM"
after `split(':').map(Number)`. -/
structure Hotel where
  id : String
  checkout_hora : Int × Int
  deriving DecidableEq

/-- The tables the module reads and writes. -/
structure Store where
  reservas : List Reserva
  pagos_reserva : List PagoReserva
  habitaciones : List Habitacion
  hoteles : List Hotel
  deriving DecidableEq

/-- The requests the module sends to the backend. -/
inductive Operacion where
  | selectHabitacion
  | selectHotel
  | insertReserva
  | insertPago
  | updateHabitacion
  | updateReserva
  deriving DecidableEq

/-- The answer `{ data, error }` of the remote procedure
`validar_cruce_reserva`; `data = none` is `null`. -/
structure RpcResult where
  data : Option Bool
  error : Option String
  deriving DecidableEq

/-- The backend behind `state.supabase`, apart from the tables: which requests
it rejects with an error, the overlap authority `validar_cruce_reserva`
(arguments `p_habitacion_id, p_entrada, p_salida, p_reserva_id_excluida`) and
the primary key it gives to an inserted reservation. -/
structure Backend where
  falla : Operacion → Bool
  validar_cruce_reserva : Store → String → Int → Int → Option String → RpcResult
  nuevoId : Store → String

/-- The modifier `.single()`: exactly one row, otherwise an error. -/
def single {α : Type} (rows : List α) : Option α :=
  match rows with
  | [x] => some x
  | _ => none

/-- The errors thrown inside the module.  The message texts are, in order:
"El nombre del cliente es obligatorio.", "Debe seleccionar una habitación.",
"La fecha y hora de llegada son obligatorias.",
"La fecha de llegada no puede ser en el pasado para nuevas reservas.",
"La cantidad de noches debe ser al menos 1.",
"Debe seleccionar un tiempo de estancia predefinido.",
"La cantidad de huéspedes debe ser al menos 1.",
"Si registra un abono, debe seleccionar un método de pago.",
"Error obteniendo detalles de la habitación.",
"No se pudo obtener la configuración del hotel.", the `errorFechas` message,
"La habitación seleccionada no permite reservas por horas.", the `RangeError`
of `toISOString` on an Invalid Date, "Error validando disponibilidad: ...",
"Conflicto: La habitación no está disponible para el período seleccionado.",
the `errorMonto` message, "Error al guardar la reserva: ..." and
"Error actualizando reserva: ...".  The backend's own message, interpolated
in three of them, is not modelled. -/
inductive ErrorReserva where
  | nombreObligatorio
  | habitacionObligatoria
  | fechaObligatoria
  | fechaEnPasado
  | nochesMinimo
  | tiempoObligatorio
  | huespedesMinimo
  | metodoPagoObligatorio
  | detallesHabitacion
  | configuracionHotel
  | fechas (e : ErrorFechas)
  | noPermiteHoras
  | rangeError
  | validandoDisponibilidad
  | conflicto
  | monto (e : ErrorMonto)
  | guardarReserva
  | actualizandoReserva
  deriving DecidableEq

/-- Content of the feedback area: empty (`clearFeedback`), a loading notice
(`showLoading`), the success message of `handleFormSubmit`
("¡Reserva actualizada con éxito!" or "¡Reserva creada con éxito!"), the
success message of `handleUpdateEstadoReserva` ("¡Reserva actualizada a
ESTADO!", followed by " (Habitación no se marcó como disponible por tener
otros cruces)." when `habitacionNoLiberada`), or an error (`showError`). -/
inductive Feedback where
  | vacio
  | cargando
  | exitoReserva (actualizada : Bool)
  | exitoEstado (nuevoEstado : String) (habitacionNoLiberada : Bool)
  | error (e : ErrorReserva)
  deriving DecidableEq

/-- The part of the page the handlers act on: the form's current values,
whether `setFormLoadingState` has put the form in the loading state, and the
feedback area. -/
structure Ui where
  form : FormData
  formLoading : Bool
  feedback : Feedback
  deriving DecidableEq

/-! ## validateInitialInputs and validateAndCalculateBooking -/

/-- The function `validateInitialInputs` (`.ok ()` when nothing is thrown). -/
def validateInitialInputs (env : Entorno) (state : State) (formData : FormData) :
    Except ErrorReserva Unit :=
  if jsTrim formData.cliente_nombre = "" then .error .nombreObligatorio
  else if formData.habitacion_id = "" then .error .habitacionObligatoria
  else if formData.fecha_entrada = "" then .error .fechaObligatoria
  else
    let fechaEntradaDate : JSDate := (env.parseFecha formData.fecha_entrada).bind timeClip
    if !state.isEditMode && dateLt fechaEntradaDate (timeClip (env.now - 10 * 60 * 1000)) then
      .error .fechaEnPasado
    else if formData.tipo_calculo_duracion = "noches_manual"
        ∧ (formData.cantidad_noches = "" ∨ numLt (parseInt formData.cantidad_noches) 1) then
      .error .nochesMinimo
    else if formData.tipo_calculo_duracion = "tiempo_predefinido"
        ∧ formData.tiempo_estancia_id = "" then
      .error .tiempoObligatorio
    else if formData.cantidad_huespedes = ""
        ∨ numLt (parseInt formData.cantidad_huespedes) 1 then
      .error .huespedesMinimo
    else if !state.isEditMode ∧ (env.parseFloat formData.monto_abono).getD 0 > 0
        ∧ formData.metodo_pago_id = "" then
      .error .metodoPagoObligatorio
    else .ok ()

/-- The query `from('habitaciones').select(...).eq('id', id).single()`. -/
def selectHabitacion (sb : Backend) (store : Store) (id : String) : Option HabitacionInfo :=
  if sb.falla .selectHabitacion then none
  else (single (store.habitaciones.filter fun h => h.id == id)).map fun h => h.info

/-- The query `from('hoteles').select('checkout_hora').eq('id', id).single()`. -/
def selectHotel (sb : Backend) (store : Store) (id : String) : Option Hotel :=
  if sb.falla .selectHotel then none
  else single (store.hoteles.filter fun h => h.id == id)

/-- The function `validateAndCalculateBooking`.  It only reads the store. -/
def validateAndCalculateBooking (env : Entorno) (state : State) (sb : Backend) (store : Store)
    (formData : FormData) : Except ErrorReserva Payload :=
  match selectHabitacion sb store formData.habitacion_id,
        selectHotel sb store state.hotelId with
  | none, _ => .error .detallesHabitacion
  | some _, none => .error .configuracionHotel
  | some habitacionInfo, some hotelConfig =>
    match calculateFechasEstancia env.tz state.tiemposEstanciaDisponibles
        (env.parseFecha formData.fecha_entrada) formData.tipo_calculo_duracion
        formData.cantidad_noches formData.tiempo_estancia_id hotelConfig.checkout_hora with
    | .error errorFechas => .error (.fechas errorFechas)
    | .ok fe =>
      if fe.tipoDuracionOriginal = "tiempo_predefinido"
          ∧ habitacionInfo.permite_reservas_por_horas = false
          ∧ esTiempoEstanciaNoches state.tiemposEstanciaDisponibles
              formData.tiempo_estancia_id = false then
        .error .noPermiteHoras
      else
        match fe.fechaEntrada, fe.fechaSalida with
        | none, _ => .error .rangeError
        | some _, none => .error .rangeError
        | some fechaEntrada, some fechaSalida =>
          let cruce := sb.validar_cruce_reserva store formData.habitacion_id fechaEntrada
            fechaSalida (if state.isEditMode then state.editingReservaId else none)
          if cruce.error.isSome then .error .validandoDisponibilidad
          else if cruce.data = some true then .error .conflicto
          else
            match calculateMontos state.tiemposEstanciaDisponibles habitacionInfo
                (parseInt formData.cantidad_huespedes) fe.tipoDuracionOriginal
                fe.cantidadDuracionOriginal formData.tiempo_estancia_id with
            | .error errorMonto => .error (.monto errorMonto)
            | .ok montos =>
              .ok {
                datosReserva := {
                  cliente_nombre := jsTrim formData.cliente_nombre
                  telefono := orNull (jsTrim formData.telefono)
                  cantidad_huespedes := parseInt formData.cantidad_huespedes
                  habitacion_id := formData.habitacion_id
                  fecha_inicio := fechaEntrada
                  fecha_fin := fechaSalida
                  estado := if state.isEditMode then none else some "reservada"
                  hotel_id := some state.hotelId
                  usuario_id := some state.currentUser
                  tipo_duracion := fe.tipoDuracionOriginal
                  cantidad_duracion := fe.cantidadDuracionOriginal
                  tiempo_estancia_id :=
                    if fe.tipoDuracionOriginal = "tiempo_predefinido" then
                      some formData.tiempo_estancia_id
                    else none
                  monto_estancia_base := montos.montoEstanciaBase
                  monto_por_huespedes_adicionales := montos.montoPorHuespedesAdicionales
                  monto_total := montos.montoEstanciaBase + montos.montoPorHuespedesAdicionales
                  notas := orNull (jsTrim formData.notas)
                  origen_reserva := "directa" }
                datosPago := {
                  monto_abono := (env.parseFloat formData.monto_abono).getD 0
                  metodo_pago_id := orNull formData.metodo_pago_id } }

/-! ## createBooking, updateBooking, handleFormSubmit -/

/-- The function `createBooking`: the reservation insert (an error is thrown
when it fails), then the deposit insert and the conditional room update, whose
errors are not inspected.  `fecha_pago` is `new Date().toISOString()`. -/
def createBooking (env : Entorno) (state : State) (sb : Backend) (store : Store)
    (payload : Payload) : Except ErrorReserva Unit × Store :=
  let datosReserva := payload.datosReserva
  let datosPago := payload.datosPago
  if sb.falla .insertReserva then (.error .guardarReserva, store)
  else
    let nuevaReservaId := sb.nuevoId store
    let store1 : Store :=
      { store with reservas := store.reservas ++ [{ id := nuevaReservaId, datos := datosReserva }] }
    let store2 : Store :=
      match datosPago.metodo_pago_id with
      | some metodo =>
        if datosPago.monto_abono > 0 ∧ metodo ≠ "" ∧ sb.falla .insertPago = false then
          { store1 with
            pagos_reserva := store1.pagos_reserva ++
              [{ reserva_id := nuevaReservaId, monto := datosPago.monto_abono,
                 metodo_pago_id := metodo, fecha_pago := env.now,
                 hotel_id := state.hotelId, usuario_id := state.currentUser }] }
        else store1
      | none => store1
    let store3 : Store :=
      if sb.falla .updateHabitacion then store2
      else
        { store2 with
          habitaciones := store2.habitaciones.map fun h =>
            if h.id == datosReserva.habitacion_id && h.estado == "libre" then
              { h with estado := "reservada" }
            else h }
    (.ok (), store3)

/-- Effect of `update(datos)` on the columns of one row: every property present
in `datos` overwrites the column; an absent property leaves it as it was. -/
def aplicarDatos (fila datos : DatosReserva) : DatosReserva :=
  { datos with
    estado := datos.estado.orElse fun _ => fila.estado
    hotel_id := datos.hotel_id.orElse fun _ => fila.hotel_id
    usuario_id := datos.usuario_id.orElse fun _ => fila.usuario_id }

/-- The function `updateBooking`: `hotel_id` and `estado` are deleted from
`datosReserva`, which is then written to the row whose id is
`state.editingReservaId`. -/
def updateBooking (state : State) (sb : Backend) (store : Store) (payload : Payload) :
    Except ErrorReserva Unit × Store :=
  let datosReserva := { payload.datosReserva with hotel_id := none, estado := none }
  if sb.falla .updateReserva then (.error .actualizandoReserva, store)
  else
    (.ok (),
     { store with
       reservas := store.reservas.map fun r =>
         if some r.id == state.editingReservaId then
           { r with datos := aplicarDatos r.datos datosReserva }
         else r })

/-- Field values after `form.reset()` followed by the assignment of
'noches_manual' to the duration selector. -/
def formularioInicial : FormData :=
  { cliente_nombre := "", telefono := "", fecha_entrada := "",
    tipo_calculo_duracion := "noches_manual", cantidad_noches := "1",
    tiempo_estancia_id := "", habitacion_id := "", cantidad_huespedes := "1",
    metodo_pago_id := "", monto_abono := "", notas := "" }

/-- The function `resetFormToCreateMode`. -/
def resetFormToCreateMode (state : State) (ui : Ui) : State × Ui :=
  ({ state with isEditMode := false, editingReservaId := none },
   { ui with form := formularioInicial })

/-- Lines 91 to 99 of `handleFormSubmit`: the statements of the `try` block up
to the store write, with the error they throw, if any, and the store they
leave. -/
def handleFormSubmitTry (env : Entorno) (state : State) (sb : Backend) (store : Store)
    (formData : FormData) : Except ErrorReserva Unit × Store :=
  match validateInitialInputs env state formData with
  | .error e => (.error e, store)
  | .ok () =>
    match validateAndCalculateBooking env state sb store formData with
    | .error e => (.error e, store)
    | .ok bookingPayload =>
      if state.isEditMode then updateBooking state sb store bookingPayload
      else createBooking env state sb store bookingPayload

/-- The function `handleFormSubmit`.  After the `try` statement, whose `catch`
block is empty, the form is reset and the success message is shown (the
message is built after the reset, when `state.isEditMode` is `false`).  The
list refresh `renderReservas` only reads the store. -/
def handleFormSubmit (env : Entorno) (state : State) (sb : Backend) (store : Store) (ui : Ui) :
    State × Store × Ui :=
  let ui := { ui with feedback := .vacio }
  let ui := { ui with formLoading := true }
  let (resultado, store) := handleFormSubmitTry env state sb store ui.form
  let (state, ui) :=
    match resultado with
    | .ok () => resetFormToCreateMode state { ui with feedback := .exitoReserva state.isEditMode }
    | .error _ => (state, ui)
  let (state, ui) := resetFormToCreateMode state ui
  (state, store, { ui with feedback := .exitoReserva state.isEditMode })

/-! ## handleUpdateEstadoReserva -/

/-- Effect on the table of `from('reservas').update({ estado }).eq('id',
reservaId)`: the row with that id gets the new status. -/
def updateEstadoReserva (store : Store) (reservaId nuevoEstadoReserva : String) : Store :=
  { store with
    reservas := store.reservas.map fun r =>
      if r.id == reservaId then
        { r with datos := { r.datos with estado := some nuevoEstadoReserva } }
      else r }

/-- The function `handleUpdateEstadoReserva`: the result (the error thrown, if
any), the store and the content of the feedback area.  `nuevoEstadoHabitacion
= none` is `null`. -/
def handleUpdateEstadoReserva (sb : Backend) (store : Store) (reservaId : String)
    (nuevoEstadoReserva : String) (nuevoEstadoHabitacion : Option String)
    (habitacionIdReserva : String) (forzarDisponibleHabitacion : Bool) :
    Except ErrorReserva Unit × Store × Feedback :=
  if sb.falla .updateReserva then (.error .actualizandoReserva, store, .cargando)
  else
    match single (store.reservas.filter fun r => r.id == reservaId) with
    | none => (.error .actualizandoReserva, store, .cargando)
    | some fila =>
      let updatedReserva : Reserva :=
        { fila with datos := { fila.datos with estado := some nuevoEstadoReserva } }
      let store1 : Store := updateEstadoReserva store reservaId nuevoEstadoReserva
      let hayCruce : Option Bool :=
        if forzarDisponibleHabitacion then
          (sb.validar_cruce_reserva store1 habitacionIdReserva updatedReserva.datos.fecha_inicio
            updatedReserva.datos.fecha_fin (some reservaId)).data
        else none
      let estadoFinalHabitacion : Option String :=
        if forzarDisponibleHabitacion then
          if hayCruce = some true then none else some "disponible"
        else nuevoEstadoHabitacion
      let sufijo : Bool := forzarDisponibleHabitacion && hayCruce == some true
      let store2 : Store :=
        match estadoFinalHabitacion with
        | none => store1
        | some estado =>
          if estado = "" ∨ sb.falla .updateHabitacion then store1
          else
            { store1 with
              habitaciones := store1.habitaciones.map fun h =>
                if h.id == habitacionIdReserva then { h with estado := estado } else h }
      (.ok (), store2, .exitoEstado nuevoEstadoReserva sufijo)

/-! ## handleListActions -/

/-- The value of `data-action` on the clicked button, for the actions that
`handleListActions` handles with the functions of this embedding: 'confirmar',
'checkin', 'checkout', 'cancelar', and any unknown value.  The actions
'editar' and 'eliminar', which call `prepareEditReserva` and
`handleDeleteReserva`, are outside the embedding. -/
inductive Accion where
  | confirmar
  | checkin
  | checkout
  | cancelar
  | desconocida
  deriving DecidableEq

/-- The function `handleListActions` on a click on an action button with
`data-id = reservaId` and `data-habitacion-id = habitacionIdReserva`: the store
and the content of the feedback area afterwards.  An error thrown by the action
is shown with `showError`; the information dialog of 'checkin' and 'checkout'
and the console warning leave both as they are. -/
def handleListActions (sb : Backend) (store : Store) (feedback : Feedback) (action : Accion)
    (reservaId habitacionIdReserva : String) : Store × Feedback :=
  match action with
  | .confirmar =>
    match handleUpdateEstadoReserva sb store reservaId "confirmada" (some "confirmada")
        habitacionIdReserva false with
    | (.ok (), store1, mensaje) => (store1, mensaje)
    | (.error e, store1, _) => (store1, .error e)
  | .checkin => (store, feedback)
  | .checkout => (store, feedback)
  | .cancelar =>
    match handleUpdateEstadoReserva sb store reservaId "cancelada" none
        habitacionIdReserva true with
    | (.ok (), store1, mensaje) => (store1, mensaje)
    | (.error e, store1, _) => (store1, .error e)
  | .desconocida => (store, feedback)

/-- The state tag that a read of `habitaciones` returns for the room `id`. -/
def estadoHabitacion (store : Store) (id : String) : Option String :=
  (store.habitaciones.find? fun h => h.id == id).map fun h => h.estado

/-- The columns that a read of `reservas` returns for the reservation `id`. -/
def datosDeReserva (store : Store) (id : String) : Option DatosReserva :=
  (store.reservas.find? fun r => r.id == id).map fun r => r.datos

/-! ## Example data -/

/-- A zone five hours west of UTC, a clock at 2024-01-01T09:00Z, and the date
strings "2024-01-01T12:00" and "2024-01-02T12:00" read as local times. -/
def entornoEjemplo : Entorno :=
  { tz := -18000000
    now := 1704099600000
    parseFecha := fun s =>
      if s = "2024-01-01T12:00" then some 1704128400000
      else if s = "2024-01-02T12:00" then some 1704214800000
      else none
    parseFloat := fun _ => none }

/-- Module state in create mode with an empty catalog. -/
def stateEjemplo : State :=
  { isEditMode := false, editingReservaId := none, tiemposEstanciaDisponibles := [],
    currentUser := "u1", hotelId := "h1" }

/-- A backend that rejects no request and whose overlap authority reports a
conflict when another reservation of the room, not cancelled, intersects the
interval. -/
def backendEjemplo : Backend :=
  { falla := fun _ => false
    validar_cruce_reserva := fun store hab entrada salida excluida =>
      { data := some (store.reservas.any fun r =>
          r.datos.habitacion_id == hab && some r.id != excluida
            && r.datos.estado != some "cancelada"
            && decide (r.datos.fecha_inicio < salida) && decide (entrada < r.datos.fecha_fin))
        error := none }
    nuevoId := fun store => String.mk (List.replicate (store.reservas.length + 1) 'r') }

/-- One hotel with checkout at 12:00 and one free room priced 50000. -/
def storeEjemplo : Store :=
  { reservas := []
    pagos_reserva := []
    habitaciones :=
      [{ id := "hab1", estado := "libre",
         info := { precio := some 50000, capacidad_base := some 2, capacidad_maxima := some 4,
                   precio_huesped_adicional := some 10000,
                   permite_reservas_por_horas := false, precio_base_hora := none } }]
    hoteles := [{ id := "h1", checkout_hora := (12, 0) }] }

/-- A request for 2 nights from 2024-01-01T12:00 for 2 guests in room hab1. -/
def formEjemplo : FormData :=
  { cliente_nombre := "Ana", telefono := "", fecha_entrada := "2024-01-01T12:00",
    tipo_calculo_duracion := "noches_manual", cantidad_noches := "2",
    tiempo_estancia_id := "", habitacion_id := "hab1", cantidad_huespedes := "2",
    metodo_pago_id := "", monto_abono := "", notas := "" }

/-- A later request for the same room whose interval intersects the first. -/
def formEjemploSolapado : FormData :=
  { formEjemplo with cliente_nombre := "Luis", fecha_entrada := "2024-01-02T12:00",
                     cantidad_noches := "1" }


/-- The record that `validateAndCalculateBooking` assembles for
`formEjemplo`: 2 nights at 50000, departure 2024-01-03 at 12:00 local time. -/
def payloadEjemplo : Payload :=
  { datosReserva :=
      { cliente_nombre := "Ana", telefono := none, cantidad_huespedes := some 2,
        habitacion_id := "hab1", fecha_inicio := 1704128400000, fecha_fin := 1704301200000,
        estado := some "reservada", hotel_id := some "h1", usuario_id := some "u1",
        tipo_duracion := "noches_manual", cantidad_duracion := 2, tiempo_estancia_id := none,
        monto_estancia_base := 100000, monto_por_huespedes_adicionales := 0,
        monto_total := 100000, notas := none, origen_reserva := "directa" }
    datosPago := { monto_abono := 0, metodo_pago_id := none } }

/-- The example store after the example request has been created: the record
is stored under the id "r" and the room is marked reserved. -/
def storeConReserva : Store :=
  { storeEjemplo with
    reservas := [{ id := "r", datos := payloadEjemplo.datosReserva }]
    habitaciones :=
      [{ id := "hab1", estado := "reservada",
         info := { precio := some 50000, capacidad_base := some 2, capacidad_maxima := some 4,
                   precio_huesped_adicional := some 10000,
                   permite_reservas_por_horas := false, precio_base_hora := none } }] }

/-- The store `storeConReserva` with a second active reservation "rr" of the
same room from 2024-01-02T12:00 to 2024-01-04T12:00 local time. -/
def storeDosReservas : Store :=
  { storeConReserva with
    reservas :=
      [{ id := "r", datos := payloadEjemplo.datosReserva },
       { id := "rr",
         datos := { payloadEjemplo.datosReserva with
                    cliente_nombre := "Luis", fecha_inicio := 1704214800000,
                    fecha_fin := 1704387600000 } }] }

/-- The store `storeConReserva` with the room under maintenance. -/
def storeMantenimiento : Store :=
  { storeConReserva with
    habitaciones :=
      [{ id := "hab1", estado := "mantenimiento",
         info := { precio := some 50000, capacidad_base := some 2, capacidad_maxima := some 4,
                   precio_huesped_adicional := some 10000,
                   permite_reservas_por_horas := false, precio_base_hora := none } }] }

/-- The example backend with an overlap authority that is out of reach: every
call returns `{ data: null, error }`. -/
def backendRpcError : Backend :=
  { backendEjemplo with
    validar_cruce_reserva := fun _ _ _ _ _ => { data := none, error := some "timeout" } }

/-- Module state while user "u2" edits the reservation "r". -/
def stateEdicion : State :=
  { isEditMode := true, editingReservaId := some "r", tiemposEstanciaDisponibles := [],
    currentUser := "u2", hotelId := "h1" }

/-- The example request with the name field left empty. -/
def formSinNombre : FormData := { formEjemplo with cliente_nombre := "  " }

/-- The record that `validateAndCalculateBooking` assembles for `formEjemplo`
in the state `stateEdicion`: no status, and "u2" as user. -/
def payloadEdicion : Payload :=
  { payloadEjemplo with
    datosReserva := { payloadEjemplo.datosReserva with estado := none, usuario_id := some "u2" } }

/-- Module state in create mode with a catalog of two entries: 3 hours and
one night of 1440 minutes. -/
def stateCatalogo : State :=
  { stateEjemplo with
    tiemposEstanciaDisponibles :=
      [{ id := "t1", nombre := "3 horas", minutos := some 180, precio := some 30000 },
       { id := "n1", nombre := "Noche", minutos := some 1440, precio := some 60000 }] }

/-- The example request as a predefined stay of 3 hours. -/
def formHoras : FormData :=
  { formEjemplo with tipo_calculo_duracion := "tiempo_predefinido", tiempo_estancia_id := "t1" }

/-- Reference definition of the predefined-mode base amount, written from the
specification's words: the entry's price verbatim when it is a non-negative
number; otherwise `hourlyBasePrice * (minutes / 60)` when the hourly base
price and the minutes are both positive; otherwise the unresolvable-price
failure. -/
def specBaseAmountPredefined (stayEntry : Option TiempoEstancia) (room : HabitacionInfo)
    (minutes : Int) : Except ErrorMonto ℚ :=
  match (stayEntry.bind fun e => e.precio).filter fun p => decide (0 ≤ p) with
  | some price => .ok price
  | none =>
    match room.precio_base_hora with
    | some hourly =>
      if 0 < hourly ∧ 0 < minutes then .ok (hourly * ((minutes : ℚ) / 60))
      else .error .precioNoDeterminado
    | none => .error .precioNoDeterminado

/-! ## Theorems: calculateFechasEstancia -/

/-- A time value within the range passes `TimeClip` unchanged. -/
theorem timeClip_eq_some {t : Int} (h : -maxTime ≤ t ∧ t ≤ maxTime) : timeClip t = some t := by
  simp [timeClip, h]

/-- The result of `TimeClip` is a valid time value exactly when the argument
is within the range, and it is then the argument. -/
theorem timeClip_some_iff {t s : Int} :
    timeClip t = some s ↔ s = t ∧ -maxTime ≤ t ∧ t ≤ maxTime := by
  unfold timeClip
  split
  · simp_all [eq_comm]
  · simp only [false_iff, not_and, reduceCtorEq]
    intro h1 h2
    simp_all

/-- On a count of at least 1, `parseInt(s) || 1` is the parsed count. -/
theorem parseIntOr1_of_pos {s : String} {n : Int} (h : parseInt s = some n) (hn : 1 ≤ n) :
    parseIntOr1 s = n := by
  have : n ≠ 0 := by omega
  simp [parseIntOr1, h, this]

/-- Within the representable range the check of line 506 does its work: a
result without error whose departure is a valid Date has the departure
strictly after the arrival. -/
theorem calculateFechasEstancia_ok_valid_lt (tz : Int) (tiempos : List TiempoEstancia)
    (fe : Option Int) (tipo noches id : String) (co : Int × Int) (r : FechasEstancia) (s : Int)
    (h : calculateFechasEstancia tz tiempos fe tipo noches id co = .ok r)
    (hs : r.fechaSalida = some s) :
    ∃ e, r.fechaEntrada = some e ∧ e < s := by
  unfold calculateFechasEstancia at h
  simp only [] at h
  split at h
  · cases h
  · split at h
    · cases h
    · rename_i fs cd heq
      split at h
      · cases h
      · rename_i hle
        cases h
        simp only at hs
        subst hs
        cases hfe : fe.bind timeClip with
        | none => simp_all
        | some e =>
          refine ⟨e, rfl, ?_⟩
          simp only [hfe, dateLe, decide_eq_true_eq] at hle
          omega

/-- C1 (evaluation at the failing input): for arrival 2024-01-01T12:00Z in a
zone of offset 0, manual nights with the count string "100000000000" and
checkout 12:00, `calculateFechasEstancia` returns without error and the
returned `fechaSalida` is the Invalid Date, which is not later than
`fechaEntrada`. -/
theorem calculateFechasEstancia_invalid_salida_sin_error :
    calculateFechasEstancia 0 [] (some 1704110400000) "noches_manual" "100000000000" "" (12, 0)
      = .ok { fechaEntrada := some 1704110400000, fechaSalida := none,
              tipoDuracionOriginal := "noches_manual",
              cantidadDuracionOriginal := 100000000000 }
    ∧ dateLt (some 1704110400000) none = false := by
  decide

/-- C2 (counterexample): with the night count 100000000000 the departure is
the Invalid Date, so no departure with the claimed calendar date and time of
day is returned. -/
theorem calculateFechasEstancia_noches_manual_fuera_de_rango :
    ¬ ∃ s, calculateFechasEstancia 0 [] (some 1704110400000) "noches_manual" "100000000000" ""
          (12, 0)
        = .ok { fechaEntrada := some 1704110400000, fechaSalida := some s,
                tipoDuracionOriginal := "noches_manual",
                cantidadDuracionOriginal := 100000000000 }
      ∧ day (localTime 0 s) = day (localTime 0 1704110400000) + 100000000000
      ∧ timeWithinDay (localTime 0 s) = makeTime 12 0 0 0 := by
  rintro ⟨s, h, -⟩
  have h2 : calculateFechasEstancia 0 [] (some 1704110400000) "noches_manual" "100000000000" ""
      (12, 0)
      = .ok { fechaEntrada := some 1704110400000, fechaSalida := none,
              tipoDuracionOriginal := "noches_manual",
              cantidadDuracionOriginal := 100000000000 } := by decide
  rw [h2] at h
  simp at h

/-- C2 (amended): for a valid arrival `t`, a night count `n ≥ 1`, a checkout
hour `hh:mm` with `0 ≤ hh ≤ 23`, `0 ≤ mm ≤ 59`, and `t + (n + 1)` days within
the Date range, manual-nights mode returns without error a departure whose
local day number is the arrival's plus `n` and whose local time of day is
exactly `hh:mm:00.000`, whatever the arrival's time of day. -/
theorem calculateFechasEstancia_noches_manual (tz t n hh mm : Int)
    (tiempos : List TiempoEstancia) (noches id : String)
    (ht : -maxTime ≤ t ∧ t ≤ maxTime) (hp : parseInt noches = some n) (hn : 1 ≤ n)
    (hh0 : 0 ≤ hh) (hh1 : hh ≤ 23) (hm0 : 0 ≤ mm) (hm1 : mm ≤ 59)
    (hr : t + (n + 1) * msPerDay ≤ maxTime) :
    ∃ s, calculateFechasEstancia tz tiempos (some t) "noches_manual" noches id (hh, mm)
        = .ok { fechaEntrada := some t, fechaSalida := some s,
                tipoDuracionOriginal := "noches_manual", cantidadDuracionOriginal := n }
      ∧ day (localTime tz s) = day (localTime tz t) + n
      ∧ timeWithinDay (localTime tz s) = makeTime hh mm 0 0 := by
  have hclip : timeClip t = some t := timeClip_eq_some ht
  have hn1 : parseIntOr1 noches = n := parseIntOr1_of_pos hp hn
  unfold maxTime at ht
  unfold maxTime msPerDay at hr
  have h1 : setDateGetDatePlus tz (some t) n = some (t + n * 86400000) := by
    simp only [setDateGetDatePlus, Option.some_bind, localTime, utc, makeDate, day,
      timeWithinDay, msPerDay]
    rw [timeClip_some_iff]
    unfold maxTime
    omega
  have h2 : setHours tz (some (t + n * 86400000)) hh mm 0 0
      = some (((t + tz) / 86400000 + n) * 86400000 + (hh * 3600000 + mm * 60000) - tz) := by
    simp only [setHours, Option.some_bind, localTime, utc, makeDate, day, makeTime,
      msPerDay, msPerHour, msPerMinute]
    rw [timeClip_some_iff]
    unfold maxTime
    omega
  refine ⟨((t + tz) / 86400000 + n) * 86400000 + (hh * 3600000 + mm * 60000) - tz, ?_, ?_, ?_⟩
  · simp only [calculateFechasEstancia, Option.some_bind, hclip, Option.isNone_some,
      if_true, hn1, h1, h2]
    have hle : dateLe (some (((t + tz) / 86400000 + n) * 86400000
        + (hh * 3600000 + mm * 60000) - tz)) (some t) = false := by
      simp only [dateLe, decide_eq_false_iff_not]
      omega
    simp [hle]
  · simp only [day, localTime, msPerDay]
    omega
  · simp only [timeWithinDay, localTime, makeTime, msPerDay, msPerHour, msPerMinute]
    omega

/-- C2 (witness): arrival 2024-01-01T20:30Z, 2 nights, checkout 12:00. -/
theorem calculateFechasEstancia_noches_manual_witness :
    ∃ s, calculateFechasEstancia 0 [] (some 1704141000000) "noches_manual" "2" "" (12, 0)
        = .ok { fechaEntrada := some 1704141000000, fechaSalida := some s,
                tipoDuracionOriginal := "noches_manual", cantidadDuracionOriginal := 2 }
      ∧ day (localTime 0 s) = day (localTime 0 1704141000000) + 2
      ∧ timeWithinDay (localTime 0 s) = makeTime 12 0 0 0 :=
  calculateFechasEstancia_noches_manual 0 1704141000000 2 12 0 [] "2" ""
    (by decide) (by decide) (by decide) (by decide) (by decide) (by decide) (by decide)
    (by decide)

/-- C3 (counterexample): a catalog entry of 1000000000000 minutes gives the
Invalid Date as departure, not arrival plus that many minutes. -/
theorem calculateFechasEstancia_predefinido_fuera_de_rango :
    ¬ (calculateFechasEstancia 0
          [{ id := "t1", nombre := "Largo", minutos := some 1000000000000, precio := none }]
          (some 1704110400000) "tiempo_predefinido" "1" "t1" (12, 0)
        = .ok { fechaEntrada := some 1704110400000,
                fechaSalida := some (1704110400000 + 1000000000000 * msPerMinute),
                tipoDuracionOriginal := "tiempo_predefinido",
                cantidadDuracionOriginal := 1000000000000 }) := by
  decide

/-- C3 (amended): for a valid arrival `t` and a catalog entry whose `minutos`
is a positive integer `m` with `t + m` minutes within the Date range,
predefined mode returns `fechaSalida = fechaEntrada + m` minutes exactly and
`m` as the duration magnitude. -/
theorem calculateFechasEstancia_predefinido (tz t m : Int) (tiempos : List TiempoEstancia)
    (tipo noches id : String) (co : Int × Int) (ts : TiempoEstancia)
    (ht : -maxTime ≤ t ∧ t ≤ maxTime) (htipo : tipo ≠ "noches_manual")
    (hf : findTiempo tiempos id = some ts) (hm : ts.minutos = some m) (hpos : 0 < m)
    (hr : t + m * msPerMinute ≤ maxTime) :
    calculateFechasEstancia tz tiempos (some t) tipo noches id co
      = .ok { fechaEntrada := some t, fechaSalida := some (t + m * msPerMinute),
              tipoDuracionOriginal := tipo, cantidadDuracionOriginal := m } := by
  have hclip : timeClip t = some t := timeClip_eq_some ht
  unfold maxTime at ht
  unfold maxTime msPerMinute at hr
  have hs : timeClip (t + m * 60 * 1000) = some (t + m * 60000) := by
    rw [timeClip_some_iff]
    unfold maxTime
    omega
  have hle : dateLe (some (t + m * 60000)) (some t) = false := by
    simp only [dateLe, decide_eq_false_iff_not]
    omega
  simp [calculateFechasEstancia, hclip, htipo, hf, hm, hs, hle, msPerMinute]

/-- C3 (witness): a 180-minute entry, arrival 2024-01-01T12:00Z. -/
theorem calculateFechasEstancia_predefinido_witness :
    calculateFechasEstancia 0
        [{ id := "t1", nombre := "3 horas", minutos := some 180, precio := some 30000 }]
        (some 1704110400000) "tiempo_predefinido" "1" "t1" (12, 0)
      = .ok { fechaEntrada := some 1704110400000,
              fechaSalida := some (1704110400000 + 180 * msPerMinute),
              tipoDuracionOriginal := "tiempo_predefinido", cantidadDuracionOriginal := 180 } :=
  calculateFechasEstancia_predefinido 0 1704110400000 180
    [{ id := "t1", nombre := "3 horas", minutos := some 180, precio := some 30000 }]
    "tiempo_predefinido" "1" "t1" (12, 0)
    { id := "t1", nombre := "3 horas", minutos := some 180, precio := some 30000 }
    (by decide) (by decide) (by decide) rfl (by decide) (by decide)

/-! ## Theorems: calculateMontos -/

/-- C4 (counterexample): predefined mode, no catalog entry, no hourly price,
5 guests in a room of maximum capacity 4: the failure returned is the
unresolvable-price error, not the occupancy error. -/
theorem calculateMontos_excede_capacidad_otro_error :
    toNumber (some 4) < 5 ∧
    ¬ (calculateMontos []
          { precio := some 50000, capacidad_base := some 2, capacidad_maxima := some 4,
            precio_huesped_adicional := some 10000, permite_reservas_por_horas := true,
            precio_base_hora := none }
          (some 5) "tiempo_predefinido" 120 "t1"
        = .error (.excedeCapacidad 5 (some 4))) := by
  decide

/-- C4 (amended): whenever `huespedes > capacidad_maxima`, `calculateMontos`
fails; the failure is the occupancy error in manual-nights mode and whenever
the predefined base price resolves (non-negative catalog price, or positive
hourly price with positive duration), and it is the unresolvable-price error,
which is checked first, otherwise. -/
theorem calculateMontos_excede_capacidad (tiempos : List TiempoEstancia) (h : HabitacionInfo)
    (g : Int) (tipo : String) (c : Int) (id : String)
    (hg : g > toNumber h.capacidad_maxima) :
    (∃ e, calculateMontos tiempos h (some g) tipo c id = .error e) ∧
    ((tipo = "noches_manual"
        ∨ (∃ p, (findTiempo tiempos id).bind (fun ts => ts.precio) = some p ∧ 0 ≤ p)
        ∨ (0 < orZero h.precio_base_hora ∧ 0 < c)) →
      calculateMontos tiempos h (some g) tipo c id = .error (.excedeCapacidad g h.capacidad_maxima)) ∧
    (¬ (tipo = "noches_manual"
        ∨ (∃ p, (findTiempo tiempos id).bind (fun ts => ts.precio) = some p ∧ 0 ≤ p)
        ∨ (0 < orZero h.precio_base_hora ∧ 0 < c)) →
      calculateMontos tiempos h (some g) tipo c id = .error .precioNoDeterminado) := by
  by_cases ht : tipo = "noches_manual"
  · simp [calculateMontos, ht, hg]
  · cases hp : (findTiempo tiempos id).bind (fun ts => ts.precio) with
    | none =>
      by_cases hb : 0 < orZero h.precio_base_hora ∧ 0 < c
      · simp [calculateMontos, ht, hp, hb, hg]
      · simp [calculateMontos, ht, hp, hb]
    | some p =>
      by_cases h0 : 0 ≤ p
      · simp [calculateMontos, ht, hp, h0, hg]
      · by_cases hb : 0 < orZero h.precio_base_hora ∧ 0 < c
        · simp [calculateMontos, ht, hp, h0, hb, hg]
        · simp [calculateMontos, ht, hp, h0, hb]

/-- C4 (witness): manual nights, 5 guests, maximum capacity 4. -/
theorem calculateMontos_excede_capacidad_witness :
    (5 : Int) > toNumber (some 4) ∧
    calculateMontos []
        { precio := some 50000, capacidad_base := some 2, capacidad_maxima := some 4,
          precio_huesped_adicional := some 10000, permite_reservas_por_horas := true,
          precio_base_hora := none }
        (some 5) "noches_manual" 2 ""
      = .error (.excedeCapacidad 5 (some 4)) :=
  ⟨by decide,
   (calculateMontos_excede_capacidad []
      { precio := some 50000, capacidad_base := some 2, capacidad_maxima := some 4,
        precio_huesped_adicional := some 10000, permite_reservas_por_horas := true,
        precio_base_hora := none }
      5 "noches_manual" 2 "" (by decide)).2.1 (Or.inl rfl)⟩

/-- C5: in predefined mode (`tipoDuracion` other than "noches_manual") the base
amount of `calculateMontos` refines the reference definition: every returned
base amount is the reference value; when the reference fails,
`calculateMontos` fails with the unresolvable-price error; when the guests fit
the room, `calculateMontos` returns whenever the reference does; and 120
minutes without catalog price give `precio_base_hora * 2`. -/
theorem calculateMontos_base_predefinido (tiempos : List TiempoEstancia) (h : HabitacionInfo)
    (g : Int) (tipo : String) (c : Int) (id : String) (ht : tipo ≠ "noches_manual") :
    (∀ r, calculateMontos tiempos h (some g) tipo c id = .ok r →
      specBaseAmountPredefined (findTiempo tiempos id) h c = .ok r.montoEstanciaBase) ∧
    (∀ e, specBaseAmountPredefined (findTiempo tiempos id) h c = .error e →
      calculateMontos tiempos h (some g) tipo c id = .error .precioNoDeterminado) ∧
    (g ≤ toNumber h.capacidad_maxima →
      ∀ b, specBaseAmountPredefined (findTiempo tiempos id) h c = .ok b →
        ∃ r, calculateMontos tiempos h (some g) tipo c id = .ok r ∧ r.montoEstanciaBase = b) ∧
    (g ≤ toNumber h.capacidad_maxima → c = 120 →
      (findTiempo tiempos id).bind (fun ts => ts.precio) = none →
      0 < orZero h.precio_base_hora →
        ∃ r, calculateMontos tiempos h (some g) tipo c id = .ok r
          ∧ r.montoEstanciaBase = orZero h.precio_base_hora * 2) := by
  have hspec : specBaseAmountPredefined (findTiempo tiempos id) h c =
      (match (findTiempo tiempos id).bind (fun tiempo => tiempo.precio) with
        | some precio =>
          if precio ≥ 0 then Except.ok precio
          else if orZero h.precio_base_hora > 0 ∧ c > 0 then
            Except.ok (orZero h.precio_base_hora * ((c : ℚ) / 60))
          else Except.error ErrorMonto.precioNoDeterminado
        | none =>
          if orZero h.precio_base_hora > 0 ∧ c > 0 then
            Except.ok (orZero h.precio_base_hora * ((c : ℚ) / 60))
          else Except.error ErrorMonto.precioNoDeterminado) := by
    unfold specBaseAmountPredefined
    cases hp : (findTiempo tiempos id).bind (fun e => e.precio) with
    | none => cases hb : h.precio_base_hora <;> simp [Option.filter, orZero]
    | some p =>
      by_cases h0 : 0 ≤ p
      · simp [Option.filter, h0]
      · cases hb : h.precio_base_hora <;> simp [Option.filter, h0, orZero]
  have hcalc : calculateMontos tiempos h (some g) tipo c id =
      (match specBaseAmountPredefined (findTiempo tiempos id) h c with
        | .error e => .error e
        | .ok b =>
          if g > toNumber h.capacidad_maxima then
            .error (.excedeCapacidad g h.capacidad_maxima)
          else if g > toNumber h.capacidad_base then
            .ok { montoEstanciaBase := b,
                  montoPorHuespedesAdicionales :=
                    (g - toNumber h.capacidad_base) * orZero h.precio_huesped_adicional
                      * ((if tipo = "tiempo_predefinido" ∧ esTiempoEstanciaNoches tiempos id then
                            max 1 (mathRound ((c : ℚ) / (24 * 60)))
                          else 1 : Int) : ℚ) }
          else .ok { montoEstanciaBase := b, montoPorHuespedesAdicionales := 0 }) := by
    rw [hspec]
    simp only [calculateMontos, ht, if_false, Int.cast_sub]
  refine ⟨?_, ?_, ?_, ?_⟩
  · intro r hr
    rw [hcalc] at hr
    cases hs : specBaseAmountPredefined (findTiempo tiempos id) h c with
    | error e => simp [hs] at hr
    | ok b =>
      simp only [hs] at hr
      split at hr
      · cases hr
      · split at hr <;> cases hr <;> rfl
  · intro e he
    have hee : e = .precioNoDeterminado := by
      unfold specBaseAmountPredefined at he
      split at he
      · cases he
      · split at he
        · split at he
          · cases he
          · cases he; rfl
        · cases he; rfl
    rw [hcalc, he, hee]
  · intro hg b hb
    rw [hcalc, hb]
    have hg2 : ¬ g > toNumber h.capacidad_maxima := by omega
    by_cases hgb : g > toNumber h.capacidad_base <;> simp [hg2, hgb]
  · intro hg hc hp hpos
    have hb : specBaseAmountPredefined (findTiempo tiempos id) h c
        = .ok (orZero h.precio_base_hora * 2) := by
      rw [hspec, hp, hc]
      simp only [gt_iff_lt, hpos, true_and]
      norm_num
    rw [hcalc, hb]
    have hg2 : ¬ g > toNumber h.capacidad_maxima := by omega
    by_cases hgb : g > toNumber h.capacidad_base <;> simp [hg2, hgb]

/-- C5 (witness): a 120-minute entry without price, hourly base price 20000. -/
theorem calculateMontos_base_predefinido_witness :
    "tiempo_predefinido" ≠ "noches_manual" ∧
    ∃ r, calculateMontos
          [{ id := "t2", nombre := "2 horas", minutos := some 120, precio := none }]
          { precio := some 50000, capacidad_base := some 2, capacidad_maxima := some 4,
            precio_huesped_adicional := some 10000, permite_reservas_por_horas := true,
            precio_base_hora := some 20000 }
          (some 2) "tiempo_predefinido" 120 "t2" = .ok r
      ∧ r.montoEstanciaBase = orZero (some 20000) * 2 :=
  ⟨by decide,
   (calculateMontos_base_predefinido
      [{ id := "t2", nombre := "2 horas", minutos := some 120, precio := none }]
      { precio := some 50000, capacidad_base := some 2, capacidad_maxima := some 4,
        precio_huesped_adicional := some 10000, permite_reservas_por_horas := true,
        precio_base_hora := some 20000 }
      2 "tiempo_predefinido" 120 "t2" (by decide)).2.2.2 (by decide) rfl (by decide)
      (by decide)⟩

/-- C6: in manual-nights mode, for `capacidad_base < huespedes ≤
capacidad_maxima`, `calculateMontos` returns the extra-guest amount
`(huespedes - capacidad_base) * precio_huesped_adicional * noches` (and the base
amount `precio * noches`). -/
theorem calculateMontos_extra_noches_manual (tiempos : List TiempoEstancia)
    (h : HabitacionInfo) (g n : Int) (id : String)
    (hb : toNumber h.capacidad_base < g) (hm : g ≤ toNumber h.capacidad_maxima) :
    calculateMontos tiempos h (some g) "noches_manual" n id
      = .ok { montoEstanciaBase := orZero h.precio * n,
              montoPorHuespedesAdicionales :=
                ((g - toNumber h.capacidad_base : Int) : ℚ)
                  * orZero h.precio_huesped_adicional * n } := by
  have hg2 : ¬ g > toNumber h.capacidad_maxima := by omega
  simp [calculateMontos, hg2, hb]

/-- C6 (witness): base occupancy 2, maximum 4, extra-guest price 10000, 3
guests, 2 nights: the extra-guest amount is 20000. -/
theorem calculateMontos_extra_noches_manual_witness :
    toNumber (some 2) < 3 ∧ (3 : Int) ≤ toNumber (some 4) ∧
    calculateMontos []
        { precio := some 50000, capacidad_base := some 2, capacidad_maxima := some 4,
          precio_huesped_adicional := some 10000, permite_reservas_por_horas := false,
          precio_base_hora := none }
        (some 3) "noches_manual" 2 ""
      = .ok { montoEstanciaBase := 100000, montoPorHuespedesAdicionales := 20000 } := by
  refine ⟨by decide, by decide, ?_⟩
  have h := calculateMontos_extra_noches_manual []
    { precio := some 50000, capacidad_base := some 2, capacidad_maxima := some 4,
      precio_huesped_adicional := some 10000, permite_reservas_por_horas := false,
      precio_base_hora := none }
    3 2 "" (by decide) (by decide)
  rw [h]
  norm_num [toNumber, orZero]

/-- Integer form of `Math.round(c / (24 * 60))`. -/
theorem mathRound_div_1440 (c : Int) : mathRound ((c : ℚ) / 1440) = (2 * c + 1440) / 2880 := by
  unfold mathRound
  rw [Int.floor_eq_iff]
  have h := Int.emod_add_ediv (2 * c + 1440) 2880
  have h1 := Int.emod_nonneg (2 * c + 1440) (by norm_num : (2880 : Int) ≠ 0)
  have h2 := Int.emod_lt_of_pos (2 * c + 1440) (by norm_num : (0 : Int) < 2880)
  set q := (2 * c + 1440) / 2880
  set r := (2 * c + 1440) % 2880
  have hc : (c : ℚ) = ((2880 * q + r - 1440 : Int) : ℚ) / 2 := by
    have h3 : 2 * c = 2880 * q + r - 1440 := by omega
    rw [← h3]
    push_cast
    ring
  constructor
  · rw [hc]
    push_cast
    have h4 : (0 : ℚ) ≤ r := by exact_mod_cast h1
    linarith
  · rw [hc]
    push_cast
    have h4 : (r : ℚ) < 2880 := by exact_mod_cast h2
    linarith

/-- C7: in predefined mode, for `capacidad_base < huespedes ≤ capacidad_maxima`,
every result of `calculateMontos` has the extra-guest amount
`(huespedes - capacidad_base) * precio_huesped_adicional * multiplier`, where
the multiplier is `max 1 (round (minutes / 1440))` when the entry is
night-equivalent and 1 otherwise; and a result is returned whenever the base
price resolves. -/
theorem calculateMontos_extra_predefinido (tiempos : List TiempoEstancia)
    (h : HabitacionInfo) (g c : Int) (id : String)
    (hb : toNumber h.capacidad_base < g) (hm : g ≤ toNumber h.capacidad_maxima) :
    (∀ r, calculateMontos tiempos h (some g) "tiempo_predefinido" c id = .ok r →
      r.montoPorHuespedesAdicionales
        = ((g - toNumber h.capacidad_base : Int) : ℚ) * orZero h.precio_huesped_adicional
          * ((if esTiempoEstanciaNoches tiempos id then max 1 (mathRound ((c : ℚ) / 1440))
              else 1 : Int) : ℚ)) ∧
    (((∃ p, (findTiempo tiempos id).bind (fun ts => ts.precio) = some p ∧ 0 ≤ p)
        ∨ (0 < orZero h.precio_base_hora ∧ 0 < c)) →
      ∃ r, calculateMontos tiempos h (some g) "tiempo_predefinido" c id = .ok r) := by
  have hg2 : ¬ g > toNumber h.capacidad_maxima := by omega
  have ht : ("tiempo_predefinido" : String) ≠ "noches_manual" := by decide
  have h1440 : ((24 : ℚ) * 60) = 1440 := by norm_num
  constructor
  · intro r hr
    simp only [calculateMontos, ht, if_false, hg2, hb, gt_iff_lt, if_true, true_and,
      h1440] at hr
    split at hr
    · cases hr
    · rename_i b hbase
      cases hr
      simp only [Int.cast_sub]
  · intro hres
    cases hp : (findTiempo tiempos id).bind (fun ts => ts.precio) with
    | none =>
      have hbh : 0 < orZero h.precio_base_hora ∧ 0 < c := by
        rcases hres with ⟨p, hp2, -⟩ | hres
        · rw [hp] at hp2; cases hp2
        · exact hres
      simp [calculateMontos, hp, hbh, hg2, hb]
    | some p =>
      by_cases h0 : 0 ≤ p
      · simp [calculateMontos, hp, h0, hg2, hb]
      · have hbh : 0 < orZero h.precio_base_hora ∧ 0 < c := by
          rcases hres with ⟨q, hp2, hq⟩ | hres
          · rw [hp] at hp2; cases hp2; exact absurd hq h0
          · exact hres
        simp [calculateMontos, hp, h0, hbh, hg2, hb]

/-- Evaluation of `calculateMontos` on a 1440-minute catalog entry with 3
guests in a room of base occupancy 2. -/
theorem calculateMontos_noche_1440_eval :
    calculateMontos
        [{ id := "n1", nombre := "Noche", minutos := some 1440, precio := some 60000 }]
        { precio := some 50000, capacidad_base := some 2, capacidad_maxima := some 4,
          precio_huesped_adicional := some 10000, permite_reservas_por_horas := false,
          precio_base_hora := none }
        (some 3) "tiempo_predefinido" 1440 "n1"
      = .ok { montoEstanciaBase := 60000, montoPorHuespedesAdicionales := 10000 } := by
  have h1440 : ((24 : ℚ) * 60) = 1440 := by norm_num
  have ht : ("tiempo_predefinido" : String) ≠ "noches_manual" := by decide
  simp only [calculateMontos, h1440, mathRound_div_1440]
  norm_num [findTiempo, esTiempoEstanciaNoches, toNumber, orZero, ht]

/-- C7 (witness): a 1440-minute entry, 3 guests over base 2, extra-guest price
10000: the entry is night-equivalent, the multiplier is 1 and the extra-guest
amount is 10000. -/
theorem calculateMontos_extra_predefinido_witness :
    toNumber (some 2) < 3 ∧ (3 : Int) ≤ toNumber (some 4) ∧
    esTiempoEstanciaNoches
      [{ id := "n1", nombre := "Noche", minutos := some 1440, precio := some 60000 }] "n1"
      = true ∧
    max 1 (mathRound (((1440 : Int) : ℚ) / 1440)) = 1 ∧
    calculateMontos
        [{ id := "n1", nombre := "Noche", minutos := some 1440, precio := some 60000 }]
        { precio := some 50000, capacidad_base := some 2, capacidad_maxima := some 4,
          precio_huesped_adicional := some 10000, permite_reservas_por_horas := false,
          precio_base_hora := none }
        (some 3) "tiempo_predefinido" 1440 "n1"
      = .ok { montoEstanciaBase := 60000, montoPorHuespedesAdicionales := 10000 } ∧
    (10000 : ℚ) = ((3 - toNumber (some 2) : Int) : ℚ) * orZero (some 10000)
      * ((if esTiempoEstanciaNoches
            [{ id := "n1", nombre := "Noche", minutos := some 1440, precio := some 60000 }]
            "n1"
          then max 1 (mathRound (((1440 : Int) : ℚ) / 1440)) else 1 : Int) : ℚ) :=
  ⟨by decide, by decide, by decide,
   by rw [mathRound_div_1440]; decide,
   calculateMontos_noche_1440_eval,
   (calculateMontos_extra_predefinido
      [{ id := "n1", nombre := "Noche", minutos := some 1440, precio := some 60000 }]
      { precio := some 50000, capacidad_base := some 2, capacidad_maxima := some 4,
        precio_huesped_adicional := some 10000, permite_reservas_por_horas := false,
        precio_base_hora := none }
      3 1440 "n1" (by decide) (by decide)).1
      { montoEstanciaBase := 60000, montoPorHuespedesAdicionales := 10000 }
      calculateMontos_noche_1440_eval⟩

/-! ## Theorems: booking flow -/

/-- What a result without error of `calculateFechasEstancia` records: the
arrival is the valid parsed instant, the duration kind is the requested one,
and in manual-nights mode the magnitude is `parseInt(noches) || 1`. -/
theorem calculateFechasEstancia_ok_inv {tz : Int} {tiempos : List TiempoEstancia}
    {f : Option Int} {tipo noches id : String} {co : Int × Int} {fe : FechasEstancia}
    (h : calculateFechasEstancia tz tiempos f tipo noches id co = .ok fe) :
    fe.fechaEntrada = f.bind timeClip ∧ (∃ e, fe.fechaEntrada = some e) ∧
    fe.tipoDuracionOriginal = tipo ∧
    (tipo = "noches_manual" → fe.cantidadDuracionOriginal = parseIntOr1 noches) := by
  unfold calculateFechasEstancia at h
  simp only [] at h
  split at h
  · cases h
  · rename_i hnone
    split at h
    · cases h
    · rename_i fs cd heq
      split at h
      · cases h
      · cases h
        refine ⟨rfl, ?_, rfl, ?_⟩
        · cases hb : f.bind timeClip with
          | none => simp [hb] at hnone
          | some e => exact ⟨e, rfl⟩
        · intro ht
          simp only [ht, if_true] at heq
          cases heq
          rfl

/-- Inversion of `validateAndCalculateBooking`: a payload is returned only
after both lookups succeeded, the dates resolved to valid instants, the
overlap authority answered without error and without conflict, and the amounts
were computed; the payload is then the assembled record. -/
theorem validateAndCalculateBooking_ok_inv {env : Entorno} {state : State} {sb : Backend}
    {store : Store} {fd : FormData} {p : Payload}
    (h : validateAndCalculateBooking env state sb store fd = .ok p) :
    ∃ hab hotel fe e s montos,
      selectHabitacion sb store fd.habitacion_id = some hab ∧
      selectHotel sb store state.hotelId = some hotel ∧
      calculateFechasEstancia env.tz state.tiemposEstanciaDisponibles
        (env.parseFecha fd.fecha_entrada) fd.tipo_calculo_duracion fd.cantidad_noches
        fd.tiempo_estancia_id hotel.checkout_hora = .ok fe ∧
      fe.fechaEntrada = some e ∧ fe.fechaSalida = some s ∧
      (sb.validar_cruce_reserva store fd.habitacion_id e s
        (if state.isEditMode then state.editingReservaId else none)).error = none ∧
      (sb.validar_cruce_reserva store fd.habitacion_id e s
        (if state.isEditMode then state.editingReservaId else none)).data ≠ some true ∧
      calculateMontos state.tiemposEstanciaDisponibles hab (parseInt fd.cantidad_huespedes)
        fe.tipoDuracionOriginal fe.cantidadDuracionOriginal fd.tiempo_estancia_id = .ok montos ∧
      p.datosReserva.fecha_inicio = e ∧ p.datosReserva.fecha_fin = s ∧
      p.datosReserva.habitacion_id = fd.habitacion_id ∧
      p.datosReserva.estado = (if state.isEditMode then none else some "reservada") ∧
      p.datosReserva.hotel_id = some state.hotelId ∧
      p.datosReserva.usuario_id = some state.currentUser ∧
      p.datosReserva.tipo_duracion = fe.tipoDuracionOriginal ∧
      p.datosReserva.cantidad_duracion = fe.cantidadDuracionOriginal ∧
      p.datosReserva.monto_estancia_base = montos.montoEstanciaBase ∧
      p.datosReserva.monto_por_huespedes_adicionales = montos.montoPorHuespedesAdicionales ∧
      p.datosReserva.monto_total
        = montos.montoEstanciaBase + montos.montoPorHuespedesAdicionales := by
  unfold validateAndCalculateBooking at h
  split at h
  · cases h
  · cases h
  · rename_i hab hotel hhab hhot
    split at h
    · cases h
    · rename_i fe hfe
      split at h
      · cases h
      · split at h
        · cases h
        · cases h
        · rename_i e s he hs
          simp only [] at h
          by_cases herr : (sb.validar_cruce_reserva store fd.habitacion_id e s
              (if state.isEditMode then state.editingReservaId else none)).error.isSome = true
          · rw [if_pos herr] at h
            cases h
          · rw [if_neg herr] at h
            by_cases hdata : (sb.validar_cruce_reserva store fd.habitacion_id e s
                (if state.isEditMode then state.editingReservaId else none)).data = some true
            · rw [if_pos hdata] at h
              cases h
            · rw [if_neg hdata] at h
              cases hm : calculateMontos state.tiemposEstanciaDisponibles hab
                  (parseInt fd.cantidad_huespedes) fe.tipoDuracionOriginal
                  fe.cantidadDuracionOriginal fd.tiempo_estancia_id with
              | error em =>
                rw [hm] at h
                cases h
              | ok montos =>
                rw [hm] at h
                cases h
                refine ⟨hab, hotel, fe, e, s, montos, hhab, hhot, hfe, he, hs, ?_, hdata, hm,
                  rfl, rfl, rfl, rfl, rfl, rfl, rfl, rfl, rfl, rfl, rfl⟩
                simpa using herr

/-- When the insert is accepted, `createBooking` appends exactly one row to
`reservas`: the payload's record under the generated id. -/
theorem createBooking_reservas (env : Entorno) (state : State) (sb : Backend) (store : Store)
    (p : Payload) (h : sb.falla .insertReserva = false) :
    (createBooking env state sb store p).1 = .ok () ∧
    (createBooking env state sb store p).2.reservas
      = store.reservas ++ [{ id := sb.nuevoId store, datos := p.datosReserva }] := by
  unfold createBooking
  simp only [h, Bool.false_eq_true, if_false, true_and]
  cases p.datosPago.metodo_pago_id <;> (simp only []; repeat' split) <;> rfl

/-- C8: in manual-nights mode with `n` nights and `huespedes ≤ capacidad_base`:
`calculateMontos` returns base `precio * n` and extra 0 (the guests fit the
room); every payload of `validateAndCalculateBooking` carries
`monto_estancia_base = precio * n`, `monto_por_huespedes_adicionales = 0` and
`monto_total` equal to their sum, that is `precio * n`; and `createBooking`
stores that record, with the three amounts, in `reservas`. -/
theorem validateAndCalculateBooking_noches_manual_total (env : Entorno) (state : State)
    (sb : Backend) (store : Store) (fd : FormData) (hab : HabitacionInfo) (g : Int)
    (htipo : fd.tipo_calculo_duracion = "noches_manual")
    (hhab : selectHabitacion sb store fd.habitacion_id = some hab)
    (hg : parseInt fd.cantidad_huespedes = some g)
    (hgb : g ≤ toNumber hab.capacidad_base) :
    (∀ n : Int, g ≤ toNumber hab.capacidad_maxima →
      calculateMontos state.tiemposEstanciaDisponibles hab (some g) "noches_manual" n
          fd.tiempo_estancia_id
        = .ok { montoEstanciaBase := orZero hab.precio * n,
                montoPorHuespedesAdicionales := 0 }) ∧
    (∀ p, validateAndCalculateBooking env state sb store fd = .ok p →
      p.datosReserva.monto_estancia_base = orZero hab.precio * parseIntOr1 fd.cantidad_noches
      ∧ p.datosReserva.monto_por_huespedes_adicionales = 0
      ∧ p.datosReserva.monto_total
          = p.datosReserva.monto_estancia_base + p.datosReserva.monto_por_huespedes_adicionales
      ∧ p.datosReserva.monto_total = orZero hab.precio * parseIntOr1 fd.cantidad_noches
      ∧ (sb.falla .insertReserva = false →
          { id := sb.nuevoId store, datos := p.datosReserva }
            ∈ (createBooking env state sb store p).2.reservas)) := by
  have hgb2 : ¬ g > toNumber hab.capacidad_base := by omega
  constructor
  · intro n hmax
    have hmax2 : ¬ g > toNumber hab.capacidad_maxima := by omega
    simp [calculateMontos, hmax2, hgb2]
  · intro p hp
    obtain ⟨hab2, hotel, fe, e, s, montos, hhab2, -, hfe, -, -, -, -, hm, -, -, -, -, -, -, -, -,
      hbase, hextra, htotal⟩ := validateAndCalculateBooking_ok_inv hp
    rw [hhab] at hhab2
    cases hhab2
    obtain ⟨-, -, ht1, ht2⟩ := calculateFechasEstancia_ok_inv hfe
    rw [htipo] at ht1
    rw [ht1, ht2 htipo, hg] at hm
    have hres : montos.montoEstanciaBase = orZero hab.precio * parseIntOr1 fd.cantidad_noches
        ∧ montos.montoPorHuespedesAdicionales = 0 := by
      simp only [calculateMontos, if_true, hgb2, if_false] at hm
      split at hm
      · cases hm
      · cases hm
        exact ⟨rfl, rfl⟩
    refine ⟨by rw [hbase, hres.1], by rw [hextra, hres.2], by rw [htotal, hbase, hextra],
      by rw [htotal, hres.1, hres.2, add_zero], ?_⟩
    intro hins
    rw [(createBooking_reservas env state sb store p hins).2]
    simp

/-- Evaluation of `validateAndCalculateBooking` on the example request. -/
theorem validateAndCalculateBooking_ejemplo :
    validateAndCalculateBooking entornoEjemplo stateEjemplo backendEjemplo storeEjemplo
      formEjemplo = .ok payloadEjemplo := by
  have hhab : selectHabitacion backendEjemplo storeEjemplo formEjemplo.habitacion_id
      = some { precio := some 50000, capacidad_base := some 2, capacidad_maxima := some 4,
               precio_huesped_adicional := some 10000, permite_reservas_por_horas := false,
               precio_base_hora := none } := by decide
  have hhot : selectHotel backendEjemplo storeEjemplo stateEjemplo.hotelId
      = some { id := "h1", checkout_hora := (12, 0) } := by decide
  have hfe : calculateFechasEstancia entornoEjemplo.tz stateEjemplo.tiemposEstanciaDisponibles
      (entornoEjemplo.parseFecha formEjemplo.fecha_entrada) formEjemplo.tipo_calculo_duracion
      formEjemplo.cantidad_noches formEjemplo.tiempo_estancia_id
      ({ id := "h1", checkout_hora := (12, 0) } : Hotel).checkout_hora
      = .ok { fechaEntrada := some 1704128400000, fechaSalida := some 1704301200000,
              tipoDuracionOriginal := "noches_manual", cantidadDuracionOriginal := 2 } := by
    decide
  have hcr : backendEjemplo.validar_cruce_reserva storeEjemplo "hab1"
      1704128400000 1704301200000 none
      = { data := some false, error := none } := by decide
  have hg : parseInt formEjemplo.cantidad_huespedes = some 2 := by decide
  have hm : calculateMontos stateEjemplo.tiemposEstanciaDisponibles
      { precio := some 50000, capacidad_base := some 2, capacidad_maxima := some 4,
        precio_huesped_adicional := some 10000, permite_reservas_por_horas := false,
        precio_base_hora := none }
      (some 2) "noches_manual" 2 formEjemplo.tiempo_estancia_id
      = .ok { montoEstanciaBase := 100000, montoPorHuespedesAdicionales := 0 } := by
    norm_num [calculateMontos, orZero, toNumber]
  have hnp : ("noches_manual" : String) ≠ "tiempo_predefinido" := by decide
  have ht1 : jsTrim formEjemplo.cliente_nombre = "Ana" := by decide
  have ht2 : orNull (jsTrim formEjemplo.telefono) = none := by decide
  have ht3 : orNull (jsTrim formEjemplo.notas) = none := by decide
  have ht4 : orNull formEjemplo.metodo_pago_id = none := by decide
  have ht5 : (entornoEjemplo.parseFloat formEjemplo.monto_abono).getD 0 = 0 := rfl
  have he : stateEjemplo.isEditMode = false := rfl
  simp only [validateAndCalculateBooking, hhab, hhot, hfe, hnp, false_and, if_false, hg,
    hm, ht1, ht2, ht3, ht4, ht5, he, Bool.false_eq_true]
  norm_num [payloadEjemplo, formEjemplo, stateEjemplo, hcr]

/-- C8 (witness): 2 nights at price 50000 with 2 guests (base occupancy 2)
give base 100000, extra 0 and total 100000 on the record. -/
theorem validateAndCalculateBooking_noches_manual_total_witness :
    formEjemplo.tipo_calculo_duracion = "noches_manual" ∧
    (2 : Int) ≤ toNumber (some 2) ∧
    validateAndCalculateBooking entornoEjemplo stateEjemplo backendEjemplo storeEjemplo
      formEjemplo = .ok payloadEjemplo ∧
    payloadEjemplo.datosReserva.monto_total = 100000 ∧
    payloadEjemplo.datosReserva.monto_total
      = orZero (some 50000) * parseIntOr1 formEjemplo.cantidad_noches :=
  ⟨rfl, by decide, validateAndCalculateBooking_ejemplo, rfl,
   ((validateAndCalculateBooking_noches_manual_total entornoEjemplo stateEjemplo backendEjemplo
      storeEjemplo formEjemplo
      { precio := some 50000, capacidad_base := some 2, capacidad_maxima := some 4,
        precio_huesped_adicional := some 10000, permite_reservas_por_horas := false,
        precio_base_hora := none }
      2 rfl (by decide) (by decide) (by decide)).2 payloadEjemplo
      validateAndCalculateBooking_ejemplo).2.2.2.1⟩

/-- Every error of `createBooking` leaves the store as it was. -/
theorem createBooking_error_store (env : Entorno) (state : State) (sb : Backend)
    (store : Store) (p : Payload) (e : ErrorReserva)
    (h : (createBooking env state sb store p).1 = .error e) :
    (createBooking env state sb store p).2 = store := by
  cases hf : sb.falla .insertReserva with
  | true => simp [createBooking, hf]
  | false =>
    rw [(createBooking_reservas env state sb store p hf).1] at h
    cases h

/-- Every error of `updateBooking` leaves the store as it was. -/
theorem updateBooking_error_store (state : State) (sb : Backend) (store : Store)
    (p : Payload) (e : ErrorReserva) (h : (updateBooking state sb store p).1 = .error e) :
    (updateBooking state sb store p).2 = store := by
  cases hf : sb.falla .updateReserva with
  | true => simp [updateBooking, hf]
  | false =>
    simp [updateBooking, hf] at h

/-- Every error raised in the `try` block of `handleFormSubmit` is raised
before any store write. -/
theorem handleFormSubmitTry_error_store (env : Entorno) (state : State) (sb : Backend)
    (store : Store) (fd : FormData) (e : ErrorReserva)
    (h : (handleFormSubmitTry env state sb store fd).1 = .error e) :
    (handleFormSubmitTry env state sb store fd).2 = store := by
  unfold handleFormSubmitTry at h ⊢
  cases hv : validateInitialInputs env state fd with
  | error e1 => rfl
  | ok u =>
    simp only [hv] at h ⊢
    cases hp : validateAndCalculateBooking env state sb store fd with
    | error e2 => rfl
    | ok p =>
      simp only [hp] at h ⊢
      cases hm : state.isEditMode with
      | true =>
        simp only [hm, if_true] at h ⊢
        exact updateBooking_error_store state sb store p e h
      | false =>
        simp only [hm, Bool.false_eq_true, if_false] at h ⊢
        exact createBooking_error_store env state sb store p e h

/-- When the run reaches the overlap authority (initial validation passed,
room and hotel were read, the dates resolved to valid instants `e`, `s`, the
hourly-booking check passed) and the authority answers `true` for the
candidate interval, `validateAndCalculateBooking` throws the conflict error,
the `try` block of `handleFormSubmit` ends with that error and the store it
started from, and the store after `handleFormSubmit` is the store before it.
This holds in create mode and in edit mode. -/
theorem handleFormSubmit_conflicto (env : Entorno) (state : State) (sb : Backend)
    (store : Store) (ui : Ui) (hab : HabitacionInfo) (hotel : Hotel) (fe : FechasEstancia)
    (e s : Int)
    (hv : validateInitialInputs env state ui.form = .ok ())
    (hhab : selectHabitacion sb store ui.form.habitacion_id = some hab)
    (hhot : selectHotel sb store state.hotelId = some hotel)
    (hfe : calculateFechasEstancia env.tz state.tiemposEstanciaDisponibles
      (env.parseFecha ui.form.fecha_entrada) ui.form.tipo_calculo_duracion
      ui.form.cantidad_noches ui.form.tiempo_estancia_id hotel.checkout_hora = .ok fe)
    (hper : ¬ (fe.tipoDuracionOriginal = "tiempo_predefinido"
      ∧ hab.permite_reservas_por_horas = false
      ∧ esTiempoEstanciaNoches state.tiemposEstanciaDisponibles
          ui.form.tiempo_estancia_id = false))
    (he : fe.fechaEntrada = some e) (hs : fe.fechaSalida = some s)
    (herr : (sb.validar_cruce_reserva store ui.form.habitacion_id e s
      (if state.isEditMode then state.editingReservaId else none)).error = none)
    (hdata : (sb.validar_cruce_reserva store ui.form.habitacion_id e s
      (if state.isEditMode then state.editingReservaId else none)).data = some true) :
    validateAndCalculateBooking env state sb store ui.form = .error .conflicto ∧
    handleFormSubmitTry env state sb store ui.form = (.error .conflicto, store) ∧
    (handleFormSubmit env state sb store ui).2.1 = store := by
  have h1 : validateAndCalculateBooking env state sb store ui.form = .error .conflicto := by
    unfold validateAndCalculateBooking
    simp only [hhab, hhot, hfe, hper, if_false, he, hs, herr, hdata, Option.isSome_none,
      Bool.false_eq_true, if_true]
  have h2 : handleFormSubmitTry env state sb store ui.form = (.error .conflicto, store) := by
    unfold handleFormSubmitTry
    simp only [hv, h1]
  refine ⟨h1, h2, ?_⟩
  unfold handleFormSubmit
  simp only [h2]

/-- Instance of the previous statement: with the example reservation stored, a
second create request for the same room from 2024-01-02T12:00 for one night
conflicts. -/
theorem handleFormSubmit_conflicto_witness :
    validateAndCalculateBooking entornoEjemplo stateEjemplo backendEjemplo storeConReserva
      formEjemploSolapado = .error .conflicto ∧
    handleFormSubmitTry entornoEjemplo stateEjemplo backendEjemplo storeConReserva
      formEjemploSolapado = (.error .conflicto, storeConReserva) ∧
    (handleFormSubmit entornoEjemplo stateEjemplo backendEjemplo storeConReserva
      { form := formEjemploSolapado, formLoading := false, feedback := .vacio }).2.1
      = storeConReserva :=
  handleFormSubmit_conflicto entornoEjemplo stateEjemplo backendEjemplo storeConReserva
    { form := formEjemploSolapado, formLoading := false, feedback := .vacio }
    { precio := some 50000, capacidad_base := some 2, capacidad_maxima := some 4,
      precio_huesped_adicional := some 10000, permite_reservas_por_horas := false,
      precio_base_hora := none }
    { id := "h1", checkout_hora := (12, 0) }
    { fechaEntrada := some 1704214800000, fechaSalida := some 1704301200000,
      tipoDuracionOriginal := "noches_manual", cantidadDuracionOriginal := 1 }
    1704214800000 1704301200000
    (by decide) (by decide) (by decide) (by decide) (by decide) rfl rfl (by decide)
    (by decide)

/-- C9 (evaluation at the failing input): with the example reservation
stored, a second create request for the same room from 2024-01-02T12:00 for one
night is submitted.  The overlap authority answers `true`,
`validateAndCalculateBooking` throws the conflict error and the store after
`handleFormSubmit` is the store before it; but the error is dropped by the
empty `catch` block, and `handleFormSubmit` ends with the form reset and the
success message "¡Reserva creada con éxito!" instead of the conflict error. -/
theorem handleFormSubmit_conflicto_muestra_exito :
    (backendEjemplo.validar_cruce_reserva storeConReserva "hab1" 1704214800000 1704301200000
      none).data = some true ∧
    validateAndCalculateBooking entornoEjemplo stateEjemplo backendEjemplo storeConReserva
      formEjemploSolapado = .error .conflicto ∧
    handleFormSubmit entornoEjemplo stateEjemplo backendEjemplo storeConReserva
        { form := formEjemploSolapado, formLoading := false, feedback := .vacio }
      = (stateEjemplo, storeConReserva,
         { form := formularioInicial, formLoading := true, feedback := .exitoReserva false }) := by
  decide

/-- Rows selected by id after `updateEstadoReserva`: the rows selected before,
with the new status. -/
theorem updateEstadoReserva_filter (store : Store) (reservaId nuevo : String) :
    (updateEstadoReserva store reservaId nuevo).reservas.filter (fun r => r.id == reservaId)
      = (store.reservas.filter fun r => r.id == reservaId).map
          fun r => { r with datos := { r.datos with estado := some nuevo } } := by
  unfold updateEstadoReserva
  simp only
  induction store.reservas with
  | nil => rfl
  | cons r rs ih =>
    simp only [List.map_cons, List.filter_cons]
    by_cases h : r.id = reservaId
    · have hb : (r.id == reservaId) = true := by simpa using h
      simp only [hb, if_true, List.map_cons, ih]
    · have hb : (r.id == reservaId) = false := by simpa using h
      simp only [hb, Bool.false_eq_true, if_false, ih]

/-- The modifier `.single()` succeeds only on a one-row result. -/
theorem single_eq_some {α : Type} {rows : List α} {x : α} (h : single rows = some x) :
    rows = [x] := by
  unfold single at h
  split at h
  · cases h
    rfl
  · cases h

/-- C10: a cancel (`nuevoEstadoReserva = "cancelada"`,
`forzarDisponibleHabitacion = true`) whose status update is accepted for the
row `fila`, and for which the overlap authority, called with the
reservation's own interval and its own id excluded, reports a conflict:
nothing is thrown, the reservation's status is "cancelada", the table
`habitaciones` is unchanged, and the message shown carries the notice that the
room was not marked available. -/
theorem handleUpdateEstadoReserva_cancelar_con_cruce (sb : Backend) (store : Store)
    (reservaId habitacionIdReserva : String) (nuevoEstadoHabitacion : Option String)
    (fila : Reserva)
    (hf : sb.falla .updateReserva = false)
    (hrow : single (store.reservas.filter fun r => r.id == reservaId) = some fila)
    (hc : (sb.validar_cruce_reserva (updateEstadoReserva store reservaId "cancelada")
      habitacionIdReserva fila.datos.fecha_inicio fila.datos.fecha_fin (some reservaId)).data
      = some true) :
    (handleUpdateEstadoReserva sb store reservaId "cancelada" nuevoEstadoHabitacion
      habitacionIdReserva true).1 = .ok () ∧
    single ((handleUpdateEstadoReserva sb store reservaId "cancelada" nuevoEstadoHabitacion
        habitacionIdReserva true).2.1.reservas.filter fun r => r.id == reservaId)
      = some { fila with datos := { fila.datos with estado := some "cancelada" } } ∧
    (handleUpdateEstadoReserva sb store reservaId "cancelada" nuevoEstadoHabitacion
      habitacionIdReserva true).2.1.habitaciones = store.habitaciones ∧
    (handleUpdateEstadoReserva sb store reservaId "cancelada" nuevoEstadoHabitacion
      habitacionIdReserva true).2.2 = .exitoEstado "cancelada" true := by
  have hres : handleUpdateEstadoReserva sb store reservaId "cancelada" nuevoEstadoHabitacion
      habitacionIdReserva true
      = (.ok (), updateEstadoReserva store reservaId "cancelada",
          .exitoEstado "cancelada" true) := by
    unfold handleUpdateEstadoReserva
    simp only [hf, Bool.false_eq_true, if_false, hrow, if_true, hc, Bool.true_and,
      beq_self_eq_true]
  rw [hres]
  refine ⟨rfl, ?_, rfl, rfl⟩
  simp only [updateEstadoReserva_filter, single_eq_some hrow, List.map, single]

/-- C10 (witness): cancelling reservation "r" while reservation "rr" of the
same room intersects its interval. -/
theorem handleUpdateEstadoReserva_cancelar_con_cruce_witness :
    (handleUpdateEstadoReserva backendEjemplo storeDosReservas "r" "cancelada" none
      "hab1" true).1 = .ok () ∧
    single ((handleUpdateEstadoReserva backendEjemplo storeDosReservas "r" "cancelada" none
        "hab1" true).2.1.reservas.filter fun r => r.id == "r")
      = some { id := "r",
               datos := { payloadEjemplo.datosReserva with estado := some "cancelada" } } ∧
    (handleUpdateEstadoReserva backendEjemplo storeDosReservas "r" "cancelada" none
      "hab1" true).2.1.habitaciones = storeDosReservas.habitaciones ∧
    (handleUpdateEstadoReserva backendEjemplo storeDosReservas "r" "cancelada" none
      "hab1" true).2.2 = .exitoEstado "cancelada" true :=
  handleUpdateEstadoReserva_cancelar_con_cruce backendEjemplo storeDosReservas "r" "hab1" none
    { id := "r", datos := payloadEjemplo.datosReserva } rfl (by decide) (by decide)

/-! ## Theorems: overlap authority failures and room states -/

/-- In the create and edit flow an error of the overlap authority is checked:
when the run reaches the authority and it answers with an error,
`validateAndCalculateBooking` throws the availability-check error and the
store after `handleFormSubmit` is the store before it. -/
theorem handleFormSubmit_rpc_error (env : Entorno) (state : State) (sb : Backend)
    (store : Store) (ui : Ui) (hab : HabitacionInfo) (hotel : Hotel) (fe : FechasEstancia)
    (e s : Int) (msg : String)
    (hv : validateInitialInputs env state ui.form = .ok ())
    (hhab : selectHabitacion sb store ui.form.habitacion_id = some hab)
    (hhot : selectHotel sb store state.hotelId = some hotel)
    (hfe : calculateFechasEstancia env.tz state.tiemposEstanciaDisponibles
      (env.parseFecha ui.form.fecha_entrada) ui.form.tipo_calculo_duracion
      ui.form.cantidad_noches ui.form.tiempo_estancia_id hotel.checkout_hora = .ok fe)
    (hper : ¬ (fe.tipoDuracionOriginal = "tiempo_predefinido"
      ∧ hab.permite_reservas_por_horas = false
      ∧ esTiempoEstanciaNoches state.tiemposEstanciaDisponibles
          ui.form.tiempo_estancia_id = false))
    (he : fe.fechaEntrada = some e) (hs : fe.fechaSalida = some s)
    (herr : (sb.validar_cruce_reserva store ui.form.habitacion_id e s
      (if state.isEditMode then state.editingReservaId else none)).error = some msg) :
    validateAndCalculateBooking env state sb store ui.form = .error .validandoDisponibilidad ∧
    (handleFormSubmit env state sb store ui).2.1 = store := by
  have h1 : validateAndCalculateBooking env state sb store ui.form
      = .error .validandoDisponibilidad := by
    unfold validateAndCalculateBooking
    simp only [hhab, hhot, hfe, hper, if_false, he, hs, herr, Option.isSome_some, if_true]
  have h2 : handleFormSubmitTry env state sb store ui.form
      = (.error .validandoDisponibilidad, store) := by
    unfold handleFormSubmitTry
    simp only [hv, h1]
  refine ⟨h1, ?_⟩
  unfold handleFormSubmit
  simp only [h2]

/-- C11 (evaluation at the failing input): the reservation "r" of room "hab1"
is cancelled while the overlap authority answers every call with an error and
no data.  The room, which was 'reservada', is written 'disponible', and the
message shown is the plain success message: the error is not looked at. -/
theorem handleListActions_cancelar_rpc_error :
    (backendRpcError.validar_cruce_reserva
        (updateEstadoReserva storeConReserva "r" "cancelada") "hab1" 1704128400000
        1704301200000 (some "r")).error = some "timeout" ∧
    estadoHabitacion storeConReserva "hab1" = some "reservada" ∧
    estadoHabitacion
        (handleListActions backendRpcError storeConReserva .vacio .cancelar "r" "hab1").1 "hab1"
      = some "disponible" ∧
    (handleListActions backendRpcError storeConReserva .vacio .cancelar "r" "hab1").2
      = .exitoEstado "cancelada" false := by
  decide

/-- C12 (evaluation at the failing inputs): for the room "hab1" in state
'mantenimiento', the cancel action (no other booking intersects) writes
'disponible' and the confirm action writes 'confirmada'. -/
theorem handleListActions_sobre_mantenimiento :
    estadoHabitacion storeMantenimiento "hab1" = some "mantenimiento" ∧
    estadoHabitacion
        (handleListActions backendEjemplo storeMantenimiento .vacio .cancelar "r" "hab1").1
        "hab1"
      = some "disponible" ∧
    estadoHabitacion
        (handleListActions backendEjemplo storeMantenimiento .vacio .confirmar "r" "hab1").1
        "hab1"
      = some "confirmada" := by
  decide

/-- The room read by id after a row-wise update that keeps the ids: the room
read before, updated. -/
theorem find_habitacion_map (hs : List Habitacion) (f : Habitacion → Habitacion)
    (hid : ∀ h, (f h).id = h.id) (id : String) :
    (hs.map f).find? (fun h => h.id == id) = (hs.find? fun h => h.id == id).map f := by
  induction hs with
  | nil => rfl
  | cons h hs ih =>
    simp only [List.map_cons, List.find?_cons, hid]
    cases hb : (h.id == id)
    · simpa using ih
    · rfl

/-- C13 (counterexample): the confirm action on the example reservation
changes the state of its room from 'reservada' to 'confirmada'. -/
theorem handleListActions_confirmar_cambia_habitacion :
    ¬ (estadoHabitacion
          (handleListActions backendEjemplo storeConReserva .vacio .confirmar "r" "hab1").1
          "hab1"
        = estadoHabitacion storeConReserva "hab1") := by
  decide

/-- C13 (amended): the confirm action, when the backend accepts both updates,
sets the status of the reservation to 'confirmada' and, for a room in state
'reservada', writes 'confirmada' as the state of that room; the state of every
other room is its state before. -/
theorem handleListActions_confirmar (sb : Backend) (store : Store) (feedback : Feedback)
    (reservaId habitacionIdReserva : String) (fila : Reserva)
    (hf : sb.falla .updateReserva = false) (hu : sb.falla .updateHabitacion = false)
    (hrow : single (store.reservas.filter fun r => r.id == reservaId) = some fila)
    (hroom : estadoHabitacion store habitacionIdReserva = some "reservada") :
    (handleListActions sb store feedback .confirmar reservaId habitacionIdReserva).2
      = .exitoEstado "confirmada" false ∧
    single ((handleListActions sb store feedback .confirmar reservaId
        habitacionIdReserva).1.reservas.filter fun r => r.id == reservaId)
      = some { fila with datos := { fila.datos with estado := some "confirmada" } } ∧
    estadoHabitacion
        (handleListActions sb store feedback .confirmar reservaId habitacionIdReserva).1
        habitacionIdReserva
      = some "confirmada" ∧
    ∀ id, id ≠ habitacionIdReserva →
      estadoHabitacion
          (handleListActions sb store feedback .confirmar reservaId habitacionIdReserva).1 id
        = estadoHabitacion store id := by
  have hne : ("confirmada" : String) ≠ "" := by decide
  have hres : handleListActions sb store feedback .confirmar reservaId habitacionIdReserva
      = ({ updateEstadoReserva store reservaId "confirmada" with
           habitaciones := (updateEstadoReserva store reservaId "confirmada").habitaciones.map
             fun h => if h.id == habitacionIdReserva then { h with estado := "confirmada" }
               else h },
         .exitoEstado "confirmada" false) := by
    unfold handleListActions handleUpdateEstadoReserva
    simp only [hf, hu, Bool.false_eq_true, if_false, hrow, hne, or_self, Bool.false_and]
  rw [hres]
  have hmap : ∀ id, estadoHabitacion
      { updateEstadoReserva store reservaId "confirmada" with
        habitaciones := (updateEstadoReserva store reservaId "confirmada").habitaciones.map
          fun h => if h.id == habitacionIdReserva then { h with estado := "confirmada" }
            else h } id
      = (store.habitaciones.find? fun h => h.id == id).map fun h =>
          if h.id == habitacionIdReserva then "confirmada" else h.estado := by
    intro id
    unfold estadoHabitacion updateEstadoReserva
    simp only
    rw [find_habitacion_map _ _ (by intro h; split <;> rfl)]
    cases store.habitaciones.find? fun h => h.id == id with
    | none => rfl
    | some h =>
      simp only [Option.map_some']
      split <;> rfl
  refine ⟨rfl, ?_, ?_, ?_⟩
  · simp only [updateEstadoReserva_filter, single_eq_some hrow, List.map, single]
  · rw [hmap]
    unfold estadoHabitacion at hroom
    cases hfind : store.habitaciones.find? fun h => h.id == habitacionIdReserva with
    | none => simp [hfind] at hroom
    | some h =>
      have hid : h.id = habitacionIdReserva := by
        simpa using List.find?_some hfind
      simp [hid]
  · intro id hne2
    rw [hmap]
    unfold estadoHabitacion
    cases hfind : store.habitaciones.find? fun h => h.id == id with
    | none => rfl
    | some h =>
      have hid : h.id = id := by simpa using List.find?_some hfind
      have hid2 : ¬ h.id = habitacionIdReserva := by
        rw [hid]
        exact hne2
      simp [hid2]

/-- C13 (witness): confirming the example reservation, whose room is in
state 'reservada'. -/
theorem handleListActions_confirmar_witness :
    (handleListActions backendEjemplo storeConReserva .vacio .confirmar "r" "hab1").2
      = .exitoEstado "confirmada" false ∧
    single ((handleListActions backendEjemplo storeConReserva .vacio .confirmar "r"
        "hab1").1.reservas.filter fun r => r.id == "r")
      = some { id := "r",
               datos := { payloadEjemplo.datosReserva with estado := some "confirmada" } } ∧
    estadoHabitacion
        (handleListActions backendEjemplo storeConReserva .vacio .confirmar "r" "hab1").1 "hab1"
      = some "confirmada" :=
  ⟨(handleListActions_confirmar backendEjemplo storeConReserva .vacio "r" "hab1"
      { id := "r", datos := payloadEjemplo.datosReserva } rfl rfl (by decide) (by decide)).1,
   (handleListActions_confirmar backendEjemplo storeConReserva .vacio "r" "hab1"
      { id := "r", datos := payloadEjemplo.datosReserva } rfl rfl (by decide) (by decide)).2.1,
   (handleListActions_confirmar backendEjemplo storeConReserva .vacio "r" "hab1"
      { id := "r", datos := payloadEjemplo.datosReserva } rfl rfl (by decide)
      (by decide)).2.2.1⟩

/-- The table `habitaciones` after `createBooking`, when the insert is
accepted: untouched if the room update is rejected, otherwise every row of the
room of the reservation that is 'libre' becomes 'reservada'. -/
theorem createBooking_habitaciones (env : Entorno) (state : State) (sb : Backend)
    (store : Store) (p : Payload) (h : sb.falla .insertReserva = false) :
    (createBooking env state sb store p).2.habitaciones
      = if sb.falla .updateHabitacion then store.habitaciones
        else store.habitaciones.map fun h =>
          if h.id == p.datosReserva.habitacion_id && h.estado == "libre" then
            { h with estado := "reservada" }
          else h := by
  unfold createBooking
  simp only [h, Bool.false_eq_true, if_false]
  cases p.datosPago.metodo_pago_id <;> (simp only []; repeat' split) <;> rfl

/-- C14: in create mode, for a payload of `validateAndCalculateBooking` and
an accepted insert, `createBooking` stores the record, whose status is
'reservada'; then the room of the reservation, if its state is 'libre' and the
backend accepts the update, gets the state 'reservada'; a room whose state is
not 'libre', and every other room, keeps its state. -/
theorem createBooking_reservada_si_libre (env : Entorno) (state : State) (sb : Backend)
    (store : Store) (fd : FormData) (p : Payload)
    (hmode : state.isEditMode = false)
    (hp : validateAndCalculateBooking env state sb store fd = .ok p)
    (hins : sb.falla .insertReserva = false) :
    (createBooking env state sb store p).1 = .ok () ∧
    (createBooking env state sb store p).2.reservas
      = store.reservas ++ [{ id := sb.nuevoId store, datos := p.datosReserva }] ∧
    p.datosReserva.estado = some "reservada" ∧
    (sb.falla .updateHabitacion = false →
      estadoHabitacion store fd.habitacion_id = some "libre" →
      estadoHabitacion (createBooking env state sb store p).2 fd.habitacion_id
        = some "reservada") ∧
    (∀ id, estadoHabitacion store id ≠ some "libre" →
      estadoHabitacion (createBooking env state sb store p).2 id = estadoHabitacion store id) ∧
    (∀ id, id ≠ fd.habitacion_id →
      estadoHabitacion (createBooking env state sb store p).2 id
        = estadoHabitacion store id) := by
  obtain ⟨_, _, _, _, _, _, -, -, -, -, -, -, -, -, -, -, hhabid, hestado, -⟩ :=
    validateAndCalculateBooking_ok_inv hp
  rw [hmode] at hestado
  have hest : ∀ id, estadoHabitacion (createBooking env state sb store p).2 id
      = if sb.falla .updateHabitacion then estadoHabitacion store id
        else (store.habitaciones.find? fun h => h.id == id).map fun h =>
          if h.id == fd.habitacion_id && h.estado == "libre" then "reservada"
          else h.estado := by
    intro id
    unfold estadoHabitacion
    rw [createBooking_habitaciones env state sb store p hins, hhabid]
    cases sb.falla .updateHabitacion
    · simp only [Bool.false_eq_true, if_false]
      rw [find_habitacion_map _ _ (by intro h; split <;> rfl)]
      cases store.habitaciones.find? fun h => h.id == id with
      | none => rfl
      | some h =>
        simp only [Option.map_some']
        split <;> rfl
    · rfl
  refine ⟨(createBooking_reservas env state sb store p hins).1,
    (createBooking_reservas env state sb store p hins).2, by simpa using hestado, ?_, ?_, ?_⟩
  · intro hu hlibre
    rw [hest, hu]
    unfold estadoHabitacion at hlibre
    cases hfind : store.habitaciones.find? fun h => h.id == fd.habitacion_id with
    | none => simp [hfind] at hlibre
    | some h =>
      have hid : h.id = fd.habitacion_id := by simpa using List.find?_some hfind
      have hes : h.estado = "libre" := by simpa [hfind] using hlibre
      simp [hid, hes]
  · intro id hno
    rw [hest]
    cases sb.falla .updateHabitacion
    · unfold estadoHabitacion at hno ⊢
      cases hfind : store.habitaciones.find? fun h => h.id == id with
      | none => rfl
      | some h =>
        have hes : ¬ h.estado = "libre" := by simpa [hfind] using hno
        simp [hes]
    · rfl
  · intro id hne
    rw [hest]
    cases sb.falla .updateHabitacion
    · unfold estadoHabitacion
      cases hfind : store.habitaciones.find? fun h => h.id == id with
      | none => rfl
      | some h =>
        have hid : h.id = id := by simpa using List.find?_some hfind
        have hid2 : ¬ h.id = fd.habitacion_id := by
          rw [hid]
          exact hne
        simp [hid2]
    · rfl

/-- C14 (witness): the example request on the example store, whose room is
'libre'. -/
theorem createBooking_reservada_si_libre_witness :
    (createBooking entornoEjemplo stateEjemplo backendEjemplo storeEjemplo payloadEjemplo).1
      = .ok () ∧
    (createBooking entornoEjemplo stateEjemplo backendEjemplo storeEjemplo
        payloadEjemplo).2.reservas
      = storeEjemplo.reservas
        ++ [{ id := backendEjemplo.nuevoId storeEjemplo, datos := payloadEjemplo.datosReserva }] ∧
    payloadEjemplo.datosReserva.estado = some "reservada" ∧
    estadoHabitacion
        (createBooking entornoEjemplo stateEjemplo backendEjemplo storeEjemplo payloadEjemplo).2
        formEjemplo.habitacion_id
      = some "reservada" :=
  ⟨(createBooking_reservada_si_libre entornoEjemplo stateEjemplo backendEjemplo storeEjemplo
      formEjemplo payloadEjemplo rfl validateAndCalculateBooking_ejemplo rfl).1,
   (createBooking_reservada_si_libre entornoEjemplo stateEjemplo backendEjemplo storeEjemplo
      formEjemplo payloadEjemplo rfl validateAndCalculateBooking_ejemplo rfl).2.1,
   (createBooking_reservada_si_libre entornoEjemplo stateEjemplo backendEjemplo storeEjemplo
      formEjemplo payloadEjemplo rfl validateAndCalculateBooking_ejemplo rfl).2.2.1,
   (createBooking_reservada_si_libre entornoEjemplo stateEjemplo backendEjemplo storeEjemplo
      formEjemplo payloadEjemplo rfl validateAndCalculateBooking_ejemplo rfl).2.2.2.1 rfl
      (by decide)⟩

/-! ## Theorems: edit payload -/

/-- Converse of the inversion: when both lookups succeed, the dates resolve to
valid instants, the hourly-booking check passes, the overlap authority answers
without error and without conflict and the amounts are computed,
`validateAndCalculateBooking` returns the assembled record. -/
theorem validateAndCalculateBooking_ok_of (env : Entorno) (state : State) (sb : Backend)
    (store : Store) (fd : FormData) (hab : HabitacionInfo) (hotel : Hotel)
    (fe : FechasEstancia) (e s : Int) (montos : Montos)
    (hhab : selectHabitacion sb store fd.habitacion_id = some hab)
    (hhot : selectHotel sb store state.hotelId = some hotel)
    (hfe : calculateFechasEstancia env.tz state.tiemposEstanciaDisponibles
      (env.parseFecha fd.fecha_entrada) fd.tipo_calculo_duracion fd.cantidad_noches
      fd.tiempo_estancia_id hotel.checkout_hora = .ok fe)
    (hper : ¬ (fe.tipoDuracionOriginal = "tiempo_predefinido"
      ∧ hab.permite_reservas_por_horas = false
      ∧ esTiempoEstanciaNoches state.tiemposEstanciaDisponibles fd.tiempo_estancia_id = false))
    (he : fe.fechaEntrada = some e) (hs : fe.fechaSalida = some s)
    (herr : (sb.validar_cruce_reserva store fd.habitacion_id e s
      (if state.isEditMode then state.editingReservaId else none)).error = none)
    (hdata : (sb.validar_cruce_reserva store fd.habitacion_id e s
      (if state.isEditMode then state.editingReservaId else none)).data ≠ some true)
    (hm : calculateMontos state.tiemposEstanciaDisponibles hab (parseInt fd.cantidad_huespedes)
      fe.tipoDuracionOriginal fe.cantidadDuracionOriginal fd.tiempo_estancia_id = .ok montos) :
    validateAndCalculateBooking env state sb store fd
      = .ok {
          datosReserva := {
            cliente_nombre := jsTrim fd.cliente_nombre
            telefono := orNull (jsTrim fd.telefono)
            cantidad_huespedes := parseInt fd.cantidad_huespedes
            habitacion_id := fd.habitacion_id
            fecha_inicio := e
            fecha_fin := s
            estado := if state.isEditMode then none else some "reservada"
            hotel_id := some state.hotelId
            usuario_id := some state.currentUser
            tipo_duracion := fe.tipoDuracionOriginal
            cantidad_duracion := fe.cantidadDuracionOriginal
            tiempo_estancia_id :=
              if fe.tipoDuracionOriginal = "tiempo_predefinido" then some fd.tiempo_estancia_id
              else none
            monto_estancia_base := montos.montoEstanciaBase
            monto_por_huespedes_adicionales := montos.montoPorHuespedesAdicionales
            monto_total := montos.montoEstanciaBase + montos.montoPorHuespedesAdicionales
            notas := orNull (jsTrim fd.notas)
            origen_reserva := "directa" }
          datosPago := {
            monto_abono := (env.parseFloat fd.monto_abono).getD 0
            metodo_pago_id := orNull fd.metodo_pago_id } } := by
  unfold validateAndCalculateBooking
  simp only [hhab, hhot, hfe, hper, if_false, he, hs, herr, hdata, Option.isSome_none,
    Bool.false_eq_true, hm]

/-- Evaluation of `validateAndCalculateBooking` when user "u2" edits the
example reservation "r" with the example request. -/
theorem validateAndCalculateBooking_edicion :
    validateAndCalculateBooking entornoEjemplo stateEdicion backendEjemplo storeConReserva
      formEjemplo = .ok payloadEdicion := by
  have hm : calculateMontos stateEdicion.tiemposEstanciaDisponibles
      { precio := some 50000, capacidad_base := some 2, capacidad_maxima := some 4,
        precio_huesped_adicional := some 10000, permite_reservas_por_horas := false,
        precio_base_hora := none }
      (parseInt formEjemplo.cantidad_huespedes) "noches_manual" 2
      formEjemplo.tiempo_estancia_id
      = .ok { montoEstanciaBase := 100000, montoPorHuespedesAdicionales := 0 } := by
    have hg : parseInt formEjemplo.cantidad_huespedes = some 2 := by decide
    rw [hg]
    norm_num [calculateMontos, orZero, toNumber]
  have h := validateAndCalculateBooking_ok_of entornoEjemplo stateEdicion backendEjemplo
    storeConReserva formEjemplo
    { precio := some 50000, capacidad_base := some 2, capacidad_maxima := some 4,
      precio_huesped_adicional := some 10000, permite_reservas_por_horas := false,
      precio_base_hora := none }
    { id := "h1", checkout_hora := (12, 0) }
    { fechaEntrada := some 1704128400000, fechaSalida := some 1704301200000,
      tipoDuracionOriginal := "noches_manual", cantidadDuracionOriginal := 2 }
    1704128400000 1704301200000
    { montoEstanciaBase := 100000, montoPorHuespedesAdicionales := 0 }
    (by decide) (by decide) (by decide) (by decide) rfl rfl (by decide) (by decide) hm
  rw [h]
  have ht1 : jsTrim formEjemplo.cliente_nombre = "Ana" := by decide
  have ht2 : orNull (jsTrim formEjemplo.telefono) = none := by decide
  have ht3 : orNull (jsTrim formEjemplo.notas) = none := by decide
  have ht4 : orNull formEjemplo.metodo_pago_id = none := by decide
  have ht5 : (entornoEjemplo.parseFloat formEjemplo.monto_abono).getD 0 = 0 := rfl
  have hg : parseInt formEjemplo.cantidad_huespedes = some 2 := by decide
  have hnp : ("noches_manual" : String) ≠ "tiempo_predefinido" := by decide
  simp only [ht1, ht2, ht3, ht4, ht5, hg]
  norm_num [payloadEdicion, payloadEjemplo, formEjemplo, stateEdicion, hnp]

/-- The reservation read by id after a row-wise update that keeps the ids: the
reservation read before, updated. -/
theorem find_reserva_map (rs : List Reserva) (f : Reserva → Reserva)
    (hid : ∀ r, (f r).id = r.id) (id : String) :
    (rs.map f).find? (fun r => r.id == id) = (rs.find? fun r => r.id == id).map f := by
  induction rs with
  | nil => rfl
  | cons r rs ih =>
    simp only [List.map_cons, List.find?_cons, hid]
    cases hb : (r.id == id)
    · simpa using ih
    · rfl

/-- An edit never writes the status or the hotel of the row: `updateBooking`
leaves both columns of every reservation as they were. -/
theorem updateBooking_conserva_estado_hotel (state : State) (sb : Backend) (store : Store)
    (p : Payload) (id : String) :
    (datosDeReserva (updateBooking state sb store p).2 id).map (fun d => (d.estado, d.hotel_id))
      = (datosDeReserva store id).map fun d => (d.estado, d.hotel_id) := by
  unfold updateBooking datosDeReserva
  cases sb.falla .updateReserva
  · simp only [Bool.false_eq_true, if_false]
    rw [find_reserva_map _ _ (by intro r; split <;> rfl)]
    cases store.reservas.find? fun r => r.id == id with
    | none => rfl
    | some r =>
      simp only [Option.map_some']
      split
      · simp [aplicarDatos]
      · rfl
  · rfl

/-- C15 (evaluation at the failing input): user "u2" edits the reservation
"r" that user "u1" created.  The object written by `updateBooking` (the payload
without `hotel_id` and `estado`) still carries `usuario_id = "u2"`, and after
the update the row's `usuario_id` is "u2" instead of "u1". -/
theorem updateBooking_cambia_usuario :
    validateAndCalculateBooking entornoEjemplo stateEdicion backendEjemplo storeConReserva
      formEjemplo = .ok payloadEdicion ∧
    ({ payloadEdicion.datosReserva with hotel_id := none, estado := none } : DatosReserva).usuario_id
      = some "u2" ∧
    (datosDeReserva storeConReserva "r").map (fun d => d.usuario_id) = some (some "u1") ∧
    (datosDeReserva
        (updateBooking stateEdicion backendEjemplo storeConReserva payloadEdicion).2 "r").map
        (fun d => d.usuario_id)
      = some (some "u2") :=
  ⟨validateAndCalculateBooking_edicion, rfl, by decide, by decide⟩

/-! ## Theorems: validateInitialInputs -/

/-- A valid arrival is never earlier than itself minus ten minutes. -/
theorem dateLt_self_menos (t : Int) : dateLt (some t) (timeClip (t - 10 * 60 * 1000)) = false := by
  unfold timeClip
  split
  · simp only [dateLt, decide_eq_false_iff_not]
    omega
  · rfl

/-- C16: with the clock `env.now` as an input, in create mode, for a submission
whose arrival is the valid instant `t` and that is otherwise valid (it passes
`validateInitialInputs` when the clock is at the arrival itself):
`validateInitialInputs` rejects it, with the past-arrival error, if `t` is
earlier than `now` minus 10 minutes, and accepts it if not; so `now - 5 min`
is accepted and `now - 15 min` is rejected.  In edit mode the past-arrival
error is never raised and the result depends neither on the instant the
arrival denotes nor on the clock. -/
theorem validateInitialInputs_fecha_pasada (env : Entorno) (state : State) (fd : FormData)
    (t : Int)
    (hcreate : state.isEditMode = false)
    (ht : env.parseFecha fd.fecha_entrada = some t)
    (htr : -maxTime ≤ t ∧ t ≤ maxTime)
    (hnow : -maxTime ≤ env.now - 10 * 60 * 1000 ∧ env.now - 10 * 60 * 1000 ≤ maxTime)
    (hotras : validateInitialInputs { env with now := t } state fd = .ok ()) :
    (t < env.now - 10 * 60 * 1000 → validateInitialInputs env state fd = .error .fechaEnPasado) ∧
    (¬ t < env.now - 10 * 60 * 1000 → validateInitialInputs env state fd = .ok ()) ∧
    (t = env.now - 5 * 60 * 1000 → validateInitialInputs env state fd = .ok ()) ∧
    (t = env.now - 15 * 60 * 1000 → validateInitialInputs env state fd = .error .fechaEnPasado) ∧
    (∀ (env2 : Entorno) (st2 : State) (fd2 : FormData), st2.isEditMode = true →
      validateInitialInputs env2 st2 fd2 ≠ .error .fechaEnPasado ∧
      ∀ (g : String → Option Int) (n : Int),
        validateInitialInputs { env2 with parseFecha := g, now := n } st2 fd2
          = validateInitialInputs env2 st2 fd2) := by
  have hclipt : timeClip t = some t := timeClip_eq_some htr
  have hclipn : timeClip (env.now - 10 * 60 * 1000) = some (env.now - 10 * 60 * 1000) :=
    timeClip_eq_some hnow
  have hmain : validateInitialInputs env state fd
      = if t < env.now - 10 * 60 * 1000 then .error .fechaEnPasado else .ok () := by
    by_cases h1 : jsTrim fd.cliente_nombre = ""
    · simp [validateInitialInputs, h1] at hotras
    by_cases h2 : fd.habitacion_id = ""
    · simp [validateInitialInputs, h1, h2] at hotras
    by_cases h3 : fd.fecha_entrada = ""
    · simp [validateInitialInputs, h1, h2, h3] at hotras
    simp only [validateInitialInputs, h1, h2, h3, if_false, ht, Option.some_bind, hclipt,
      hcreate, Bool.not_false, Bool.true_and, dateLt_self_menos, Bool.false_eq_true]
      at hotras
    simp only [validateInitialInputs, h1, h2, h3, if_false, ht, Option.some_bind, hclipt,
      hcreate, Bool.not_false, Bool.true_and, hclipn, dateLt, decide_eq_true_eq]
    by_cases hlt : t < env.now - 10 * 60 * 1000
    · simp only [hlt, if_true]
    · simp only [hlt, if_false]
      exact hotras
  refine ⟨?_, ?_, ?_, ?_, ?_⟩
  · intro hlt
    rw [hmain, if_pos hlt]
  · intro hlt
    rw [hmain, if_neg hlt]
  · intro h5
    rw [hmain, if_neg (by omega)]
  · intro h15
    rw [hmain, if_pos (by omega)]
  · intro env2 st2 fd2 hedit
    constructor
    · unfold validateInitialInputs
      simp only [hedit, Bool.not_true, Bool.false_and, Bool.false_eq_true, if_false]
      repeat' split
      all_goals simp
    · intro g n
      unfold validateInitialInputs
      simp only [hedit, Bool.not_true, Bool.false_and, Bool.false_eq_true, if_false]

/-- C16 (witness): the example request, whose arrival is 2024-01-01T17:00Z,
is accepted when the clock is 5 minutes later and rejected when it is 15
minutes later. -/
theorem validateInitialInputs_fecha_pasada_witness :
    validateInitialInputs { entornoEjemplo with now := 1704128400000 + 5 * 60 * 1000 }
        stateEjemplo formEjemplo = .ok () ∧
    validateInitialInputs { entornoEjemplo with now := 1704128400000 + 15 * 60 * 1000 }
        stateEjemplo formEjemplo = .error .fechaEnPasado :=
  ⟨(validateInitialInputs_fecha_pasada
      { entornoEjemplo with now := 1704128400000 + 5 * 60 * 1000 } stateEjemplo formEjemplo
      1704128400000 rfl (by decide) (by decide) (by decide) (by decide)).2.2.1 (by decide),
   (validateInitialInputs_fecha_pasada
      { entornoEjemplo with now := 1704128400000 + 15 * 60 * 1000 } stateEjemplo formEjemplo
      1704128400000 rfl (by decide) (by decide) (by decide) (by decide)).2.2.2.1 (by decide)⟩

/-! ## Theorems: invalid duration, form reset -/

/-- C17 (counterexample): a catalog entry whose `minutos` is 0 does not give
the invalid-duration error; the failure is the departure-not-later error. -/
theorem calculateFechasEstancia_minutos_cero :
    ¬ (calculateFechasEstancia 0
          [{ id := "t0", nombre := "Cero", minutos := some 0, precio := none }]
          (some 1704110400000) "tiempo_predefinido" "1" "t0" (12, 0)
        = .error .tiempoEstanciaNoValido) := by
  decide

/-- C17 (amended): for a valid arrival, in predefined mode,
`calculateFechasEstancia` fails with the invalid-duration error exactly when
the id is absent from the catalog or the entry's `minutos` is not a number;
when `minutos` is a number that is 0 or negative (and the departure is within
the Date range) it fails with the departure-not-later error. -/
theorem calculateFechasEstancia_tiempo_no_valido (tz t : Int) (tiempos : List TiempoEstancia)
    (tipo noches id : String) (co : Int × Int)
    (ht : -maxTime ≤ t ∧ t ≤ maxTime) (htipo : tipo ≠ "noches_manual") :
    (calculateFechasEstancia tz tiempos (some t) tipo noches id co
        = .error .tiempoEstanciaNoValido
      ↔ (findTiempo tiempos id = none
          ∨ ∃ ts, findTiempo tiempos id = some ts ∧ ts.minutos = none)) ∧
    (∀ ts m, findTiempo tiempos id = some ts → ts.minutos = some m → m ≤ 0 →
      -maxTime ≤ t + m * msPerMinute →
      calculateFechasEstancia tz tiempos (some t) tipo noches id co
        = .error .salidaNoPosterior) := by
  have hclip : timeClip t = some t := timeClip_eq_some ht
  constructor
  · constructor
    · intro h
      cases hf : findTiempo tiempos id with
      | none => exact Or.inl rfl
      | some ts =>
        cases hm : ts.minutos with
        | none => exact Or.inr ⟨ts, rfl, hm⟩
        | some m =>
          exfalso
          simp only [calculateFechasEstancia, Option.some_bind, hclip, Option.isNone_some,
            Bool.false_eq_true, if_false, htipo, hf, hm] at h
          split at h <;> cases h
    · rintro (hf | ⟨ts, hf, hm⟩)
      · simp [calculateFechasEstancia, hclip, htipo, hf]
      · simp [calculateFechasEstancia, hclip, htipo, hf, hm]
  · intro ts m hf hm hle hlow
    unfold maxTime at ht hlow
    unfold msPerMinute at hlow
    have hs : timeClip (t + m * 60 * 1000) = some (t + m * 60000) := by
      rw [timeClip_some_iff]
      unfold maxTime
      omega
    have hdl : dateLe (some (t + m * 60000)) (some t) = true := by
      simp only [dateLe, decide_eq_true_eq]
      omega
    simp [calculateFechasEstancia, hclip, htipo, hf, hm, hs, hdl]

/-- C17 (witness): an id that is not in the catalog. -/
theorem calculateFechasEstancia_tiempo_no_valido_witness :
    calculateFechasEstancia 0
        [{ id := "t1", nombre := "3 horas", minutos := some 180, precio := some 30000 }]
        (some 1704110400000) "tiempo_predefinido" "1" "t9" (12, 0)
      = .error .tiempoEstanciaNoValido :=
  (calculateFechasEstancia_tiempo_no_valido 0 1704110400000
    [{ id := "t1", nombre := "3 horas", minutos := some 180, precio := some 30000 }]
    "tiempo_predefinido" "1" "t9" (12, 0) (by decide) (by decide)).1.2 (Or.inl (by decide))

/-- Whatever happens in the `try` block, `handleFormSubmit` ends in create
mode, with the form reset, the loading state set and the success message
"¡Reserva creada con éxito!". -/
theorem handleFormSubmit_siempre_exito (env : Entorno) (state : State) (sb : Backend)
    (store : Store) (ui : Ui) :
    (handleFormSubmit env state sb store ui).1.isEditMode = false ∧
    (handleFormSubmit env state sb store ui).1.editingReservaId = none ∧
    (handleFormSubmit env state sb store ui).2.2
      = { form := formularioInicial, formLoading := true, feedback := .exitoReserva false } := by
  unfold handleFormSubmit
  simp only []
  rcases handleFormSubmitTry env state sb store ui.form with ⟨r, st⟩
  cases r <;> simp [resetFormToCreateMode]

/-- C18 (evaluation at the failing input): while the reservation "r" is being
edited, the form is submitted with a blank name.  The `try` block throws the
missing-name error before any store write, and `handleFormSubmit` nevertheless
leaves edit mode, resets the form and shows the success message. -/
theorem handleFormSubmit_fallo_muestra_exito :
    handleFormSubmitTry entornoEjemplo stateEdicion backendEjemplo storeConReserva formSinNombre
      = (.error .nombreObligatorio, storeConReserva) ∧
    handleFormSubmit entornoEjemplo stateEdicion backendEjemplo storeConReserva
        { form := formSinNombre, formLoading := false, feedback := .vacio }
      = ({ stateEdicion with isEditMode := false, editingReservaId := none },
         storeConReserva,
         { form := formularioInicial, formLoading := true, feedback := .exitoReserva false }) := by
  decide

/-! ## Theorems: night-equivalent entries -/

/-- In a catalog whose ids are unique, the lookup by id finds an entry exactly
when the entry is in the catalog under that id. -/
theorem findTiempo_eq_some_iff (tiempos : List TiempoEstancia) (id : String)
    (ts : TiempoEstancia) (hnodup : (tiempos.map fun x => x.id).Nodup) :
    findTiempo tiempos id = some ts ↔ ts ∈ tiempos ∧ ts.id = id := by
  unfold findTiempo
  induction tiempos with
  | nil => simp
  | cons x xs ih =>
    rw [List.map_cons, List.nodup_cons] at hnodup
    obtain ⟨hx, hxs⟩ := hnodup
    rw [List.find?_cons]
    by_cases hid : x.id = id
    · have hb : (x.id == id) = true := by simpa using hid
      simp only [hb, Option.some.injEq, List.mem_cons]
      constructor
      · intro h
        subst h
        exact ⟨Or.inl rfl, hid⟩
      · rintro ⟨h | h, hts⟩
        · exact h.symm
        · exfalso
          apply hx
          rw [List.mem_map]
          exact ⟨ts, h, by rw [hts, hid]⟩
    · have hb : (x.id == id) = false := by simpa using hid
      simp only [hb, List.mem_cons]
      rw [ih hxs]
      constructor
      · rintro ⟨h, hts⟩
        exact ⟨Or.inr h, hts⟩
      · rintro ⟨h | h, hts⟩
        · subst h
          exact absurd hts hid
        · exact ⟨h, hts⟩

/-- The hourly-booking error of `validateAndCalculateBooking` is thrown only by
the check of line 436: both lookups succeeded, the dates resolved, the
duration kind is "tiempo_predefinido", the room does not allow hourly bookings
and the entry is not night-equivalent. -/
theorem validateAndCalculateBooking_noPermiteHoras_inv {env : Entorno} {state : State}
    {sb : Backend} {store : Store} {fd : FormData}
    (h : validateAndCalculateBooking env state sb store fd = .error .noPermiteHoras) :
    ∃ hab hotel fe,
      selectHabitacion sb store fd.habitacion_id = some hab ∧
      selectHotel sb store state.hotelId = some hotel ∧
      calculateFechasEstancia env.tz state.tiemposEstanciaDisponibles
        (env.parseFecha fd.fecha_entrada) fd.tipo_calculo_duracion fd.cantidad_noches
        fd.tiempo_estancia_id hotel.checkout_hora = .ok fe ∧
      fe.tipoDuracionOriginal = "tiempo_predefinido" ∧
      hab.permite_reservas_por_horas = false ∧
      esTiempoEstanciaNoches state.tiemposEstanciaDisponibles fd.tiempo_estancia_id = false := by
  unfold validateAndCalculateBooking at h
  split at h
  · cases h
  · cases h
  · rename_i hab hotel hhab hhot
    split at h
    · cases h
    · rename_i fe hfe
      by_cases hper : fe.tipoDuracionOriginal = "tiempo_predefinido"
          ∧ hab.permite_reservas_por_horas = false
          ∧ esTiempoEstanciaNoches state.tiemposEstanciaDisponibles
              fd.tiempo_estancia_id = false
      · exact ⟨hab, hotel, fe, hhab, hhot, hfe, hper.1, hper.2.1, hper.2.2⟩
      · exfalso
        rw [if_neg hper] at h
        split at h
        · cases h
        · cases h
        · rename_i e s he hs
          simp only [] at h
          by_cases herr : (sb.validar_cruce_reserva store fd.habitacion_id e s
              (if state.isEditMode then state.editingReservaId else none)).error.isSome = true
          · rw [if_pos herr] at h
            cases h
          · rw [if_neg herr] at h
            by_cases hdata : (sb.validar_cruce_reserva store fd.habitacion_id e s
                (if state.isEditMode then state.editingReservaId else none)).data = some true
            · rw [if_pos hdata] at h
              cases h
            · rw [if_neg hdata] at h
              cases hm : calculateMontos state.tiemposEstanciaDisponibles hab
                  (parseInt fd.cantidad_huespedes) fe.tipoDuracionOriginal
                  fe.cantidadDuracionOriginal fd.tiempo_estancia_id with
              | error em =>
                rw [hm] at h
                cases h
              | ok montos =>
                rw [hm] at h
                cases h

/-- C19: for a catalog whose ids are unique and not empty,
`esTiempoEstanciaNoches id` is true exactly when the catalog has an entry with
that id whose `minutos` is a number between 1320 and 1560; a booking of kind
"tiempo_predefinido" that reaches the check of line 436 (room and hotel read,
dates resolved) for a room that does not allow hourly bookings is rejected with
the hourly-booking error if and only if the selected entry is not
night-equivalent; and a manual-nights booking is never rejected with that
error. -/
theorem esTiempoEstanciaNoches_y_reservas_por_horas (env : Entorno) (state : State)
    (sb : Backend) (store : Store) (fd : FormData) (hab : HabitacionInfo) (hotel : Hotel)
    (fe : FechasEstancia)
    (hnodup : (state.tiemposEstanciaDisponibles.map fun ts => ts.id).Nodup)
    (hids : ∀ ts ∈ state.tiemposEstanciaDisponibles, ts.id ≠ "")
    (hhab : selectHabitacion sb store fd.habitacion_id = some hab)
    (hperm : hab.permite_reservas_por_horas = false)
    (hhot : selectHotel sb store state.hotelId = some hotel)
    (hfe : calculateFechasEstancia env.tz state.tiemposEstanciaDisponibles
      (env.parseFecha fd.fecha_entrada) fd.tipo_calculo_duracion fd.cantidad_noches
      fd.tiempo_estancia_id hotel.checkout_hora = .ok fe)
    (htipo : fd.tipo_calculo_duracion = "tiempo_predefinido") :
    (∀ id, esTiempoEstanciaNoches state.tiemposEstanciaDisponibles id = true
      ↔ ∃ ts ∈ state.tiemposEstanciaDisponibles, ts.id = id
          ∧ ∃ m, ts.minutos = some m ∧ 1320 ≤ m ∧ m ≤ 1560) ∧
    (validateAndCalculateBooking env state sb store fd = .error .noPermiteHoras
      ↔ esTiempoEstanciaNoches state.tiemposEstanciaDisponibles fd.tiempo_estancia_id
          = false) ∧
    (∀ (env2 : Entorno) (st2 : State) (sb2 : Backend) (store2 : Store) (fd2 : FormData),
      fd2.tipo_calculo_duracion = "noches_manual" →
      validateAndCalculateBooking env2 st2 sb2 store2 fd2 ≠ .error .noPermiteHoras) := by
  refine ⟨?_, ?_, ?_⟩
  · intro id
    unfold esTiempoEstanciaNoches
    by_cases hid : id = ""
    · simp only [hid, if_true, Bool.false_eq_true, false_iff]
      rintro ⟨ts, hmem, htsid, -⟩
      exact hids ts hmem htsid
    · simp only [hid, if_false]
      cases hf : findTiempo state.tiemposEstanciaDisponibles id with
      | none =>
        simp only [Bool.false_eq_true, false_iff]
        rintro ⟨ts, hmem, htsid, -⟩
        have hsome := (findTiempo_eq_some_iff _ id ts hnodup).2 ⟨hmem, htsid⟩
        rw [hf] at hsome
        cases hsome
      | some ts =>
        have hts := (findTiempo_eq_some_iff _ id ts hnodup).1 hf
        simp only [Bool.and_eq_true, decide_eq_true_eq]
        constructor
        · rintro ⟨h1, h2⟩
          cases hm : ts.minutos with
          | none =>
            rw [hm] at h1
            simp [toNumber] at h1
          | some m =>
            rw [hm] at h1 h2
            simp only [toNumber, Option.getD_some] at h1 h2
            exact ⟨ts, hts.1, hts.2, m, hm, by omega, by omega⟩
        · rintro ⟨ts2, hmem, htsid, m, hm, h1, h2⟩
          have hsome := (findTiempo_eq_some_iff _ id ts2 hnodup).2 ⟨hmem, htsid⟩
          rw [hf] at hsome
          cases hsome
          rw [hm]
          simp only [toNumber, Option.getD_some]
          constructor <;> omega
  · have htf : fe.tipoDuracionOriginal = "tiempo_predefinido" := by
      rw [(calculateFechasEstancia_ok_inv hfe).2.2.1, htipo]
    constructor
    · intro h
      obtain ⟨-, -, -, -, -, -, -, -, hes⟩ := validateAndCalculateBooking_noPermiteHoras_inv h
      exact hes
    · intro hes
      unfold validateAndCalculateBooking
      simp only [hhab, hhot, hfe, htf, hperm, hes, and_self, if_true]
  · intro env2 st2 sb2 store2 fd2 hman h
    obtain ⟨_, _, fe2, -, -, hfe2, htf2, -, -⟩ := validateAndCalculateBooking_noPermiteHoras_inv h
    rw [(calculateFechasEstancia_ok_inv hfe2).2.2.1, hman] at htf2
    exact absurd htf2 (by decide)

/-- C19 (witness): the 3-hour entry is not night-equivalent, the 1440-minute
entry is, and the 3-hour request for the example room, which does not allow
hourly bookings, is rejected with the hourly-booking error. -/
theorem esTiempoEstanciaNoches_y_reservas_por_horas_witness :
    esTiempoEstanciaNoches stateCatalogo.tiemposEstanciaDisponibles "t1" = false ∧
    esTiempoEstanciaNoches stateCatalogo.tiemposEstanciaDisponibles "n1" = true ∧
    validateAndCalculateBooking entornoEjemplo stateCatalogo backendEjemplo storeEjemplo
      formHoras = .error .noPermiteHoras :=
  ⟨by decide, by decide,
   (esTiempoEstanciaNoches_y_reservas_por_horas entornoEjemplo stateCatalogo backendEjemplo
      storeEjemplo formHoras
      { precio := some 50000, capacidad_base := some 2, capacidad_maxima := some 4,
        precio_huesped_adicional := some 10000, permite_reservas_por_horas := false,
        precio_base_hora := none }
      { id := "h1", checkout_hora := (12, 0) }
      { fechaEntrada := some 1704128400000, fechaSalida := some 1704139200000,
        tipoDuracionOriginal := "tiempo_predefinido", cantidadDuracionOriginal := 180 }
      (by decide) (by decide) (by decide) rfl (by decide) (by decide) rfl).2.1.2 (by decide)⟩

/-- C20: when the duration passed to `calculateMontos` is the `minutos` of the
selected catalog entry, `max 1 (round (m / 1440))` is 1 for every `m` between
1320 and 1560, so in predefined mode, for `capacidad_base < huespedes ≤
capacidad_maxima`, the multiplier is 1 whether or not the entry is
night-equivalent: every result has the extra-guest amount
`(huespedes - capacidad_base) * precio_huesped_adicional`; that result is
returned, with the catalog price as base, when the entry's price is a
non-negative number, and with `precio_base_hora * (minutos / 60)` as base when
it is not and the hourly price and the minutes are positive; otherwise the
unresolvable-price error is returned.  The amount does not depend on the
length of the stay. -/
theorem calculateMontos_extra_predefinido_factor_uno (tiempos : List TiempoEstancia)
    (h : HabitacionInfo) (g c : Int) (id : String) (ts : TiempoEstancia)
    (hf : findTiempo tiempos id = some ts) (hmin : ts.minutos = some c)
    (hb : toNumber h.capacidad_base < g) (hm : g ≤ toNumber h.capacidad_maxima) :
    (∀ m : Int, 1320 ≤ m → m ≤ 1560 → max 1 (mathRound ((m : ℚ) / 1440)) = 1) ∧
    (∀ r, calculateMontos tiempos h (some g) "tiempo_predefinido" c id = .ok r →
      r.montoPorHuespedesAdicionales
        = ((g - toNumber h.capacidad_base : Int) : ℚ) * orZero h.precio_huesped_adicional) ∧
    (∀ p, ts.precio = some p → 0 ≤ p →
      calculateMontos tiempos h (some g) "tiempo_predefinido" c id
        = .ok { montoEstanciaBase := p,
                montoPorHuespedesAdicionales :=
                  ((g - toNumber h.capacidad_base : Int) : ℚ)
                    * orZero h.precio_huesped_adicional }) ∧
    ((ts.precio = none ∨ ∃ p, ts.precio = some p ∧ p < 0) →
      0 < orZero h.precio_base_hora → 0 < c →
      calculateMontos tiempos h (some g) "tiempo_predefinido" c id
        = .ok { montoEstanciaBase := orZero h.precio_base_hora * ((c : ℚ) / 60),
                montoPorHuespedesAdicionales :=
                  ((g - toNumber h.capacidad_base : Int) : ℚ)
                    * orZero h.precio_huesped_adicional }) ∧
    ((ts.precio = none ∨ ∃ p, ts.precio = some p ∧ p < 0) →
      ¬ (0 < orZero h.precio_base_hora ∧ 0 < c) →
      calculateMontos tiempos h (some g) "tiempo_predefinido" c id
        = .error .precioNoDeterminado) := by
  have hround : ∀ m : Int, 1320 ≤ m → m ≤ 1560 → max 1 (mathRound ((m : ℚ) / 1440)) = 1 := by
    intro m h1 h2
    rw [mathRound_div_1440]
    have h3 : (2 * m + 1440) / 2880 = 1 := by omega
    rw [h3]
    rfl
  have hg2 : ¬ g > toNumber h.capacidad_maxima := by omega
  have ht : ("tiempo_predefinido" : String) ≠ "noches_manual" := by decide
  have h1440 : ((24 : ℚ) * 60) = 1440 := by norm_num
  have hextra : ∀ r, calculateMontos tiempos h (some g) "tiempo_predefinido" c id = .ok r →
      r.montoPorHuespedesAdicionales
        = ((g - toNumber h.capacidad_base : Int) : ℚ) * orZero h.precio_huesped_adicional := by
    intro r hr
    by_cases hes : esTiempoEstanciaNoches tiempos id = true
    · have hrange : 1320 ≤ c ∧ c ≤ 1560 := by
        have hes2 := hes
        unfold esTiempoEstanciaNoches at hes2
        split at hes2
        · cases hes2
        · simp only [hf, hmin, toNumber, Option.getD_some, Bool.and_eq_true,
            decide_eq_true_eq] at hes2
          omega
      have hfac : max 1 (mathRound ((c : ℚ) / 1440)) = 1 := hround c hrange.1 hrange.2
      simp only [calculateMontos, ht, if_false, hg2, hb, gt_iff_lt, if_true, h1440, hes,
        and_self, hfac] at hr
      split at hr
      · cases hr
      · cases hr
        simp
    · simp only [calculateMontos, ht, if_false, hg2, hb, gt_iff_lt, if_true, h1440, hes,
        and_false] at hr
      split at hr
      · cases hr
      · cases hr
        simp
  have hbind : ∀ q, ts.precio = q →
      (findTiempo tiempos id).bind (fun tiempo => tiempo.precio) = q := by
    intro q hq
    rw [hf]
    exact hq
  have hfin : ∀ b : ℚ,
      (∃ e, calculateMontos tiempos h (some g) "tiempo_predefinido" c id
        = .ok { montoEstanciaBase := b, montoPorHuespedesAdicionales := e }) →
      calculateMontos tiempos h (some g) "tiempo_predefinido" c id
        = .ok { montoEstanciaBase := b,
                montoPorHuespedesAdicionales :=
                  ((g - toNumber h.capacidad_base : Int) : ℚ)
                    * orZero h.precio_huesped_adicional } := by
    rintro b ⟨e, he⟩
    have hx := hextra _ he
    simp only at hx
    rw [he, hx]
  have hfallback : (ts.precio = none ∨ ∃ p, ts.precio = some p ∧ p < 0) →
      ∀ x : Except ErrorMonto ℚ,
        (if orZero h.precio_base_hora > 0 ∧ c > 0 then
          Except.ok (orZero h.precio_base_hora * ((c : ℚ) / 60))
        else Except.error ErrorMonto.precioNoDeterminado) = x →
        (match (findTiempo tiempos id).bind (fun tiempo => tiempo.precio) with
          | some precio =>
            if precio ≥ 0 then Except.ok precio
            else if orZero h.precio_base_hora > 0 ∧ c > 0 then
              Except.ok (orZero h.precio_base_hora * ((c : ℚ) / 60))
            else Except.error ErrorMonto.precioNoDeterminado
          | none =>
            if orZero h.precio_base_hora > 0 ∧ c > 0 then
              Except.ok (orZero h.precio_base_hora * ((c : ℚ) / 60))
            else Except.error ErrorMonto.precioNoDeterminado) = x := by
    rintro (hn | ⟨p, hp, hneg⟩) x hx
    · rw [hbind _ hn]
      exact hx
    · rw [hbind _ hp]
      have hno : ¬ p ≥ 0 := not_le.mpr hneg
      simp only [hno, if_false]
      exact hx
  refine ⟨hround, hextra, ?_, ?_, ?_⟩
  · intro p hp h0
    apply hfin
    have h0' : p ≥ 0 := h0
    simp only [calculateMontos, ht, if_false, hbind _ hp, h0', if_true, hg2, hb, gt_iff_lt]
    exact ⟨_, rfl⟩
  · intro hprecio hpbh hc
    apply hfin
    have hcond : orZero h.precio_base_hora > 0 ∧ c > 0 := ⟨hpbh, hc⟩
    have hbase := hfallback hprecio _ (if_pos hcond)
    simp only [calculateMontos, ht, if_false, hbase, hg2, hb, gt_iff_lt, if_true]
    exact ⟨_, rfl⟩
  · intro hprecio hcond
    have hcond2 : ¬ (orZero h.precio_base_hora > 0 ∧ c > 0) := hcond
    have hbase := hfallback hprecio _ (if_neg hcond2)
    simp only [calculateMontos, ht, if_false, hbase]

/-- C20 (witness): for the 1440-minute entry priced 60000, with 3 guests over
base 2 and extra-guest price 10000, `calculateMontos` returns the base 60000
and the extra-guest amount `(3 - 2) * 10000`; and the multiplier of a
1560-minute entry is 1 as well. -/
theorem calculateMontos_extra_predefinido_factor_uno_witness :
    max 1 (mathRound (((1560 : Int) : ℚ) / 1440)) = 1 ∧
    calculateMontos
        [{ id := "n1", nombre := "Noche", minutos := some 1440, precio := some 60000 }]
        { precio := some 50000, capacidad_base := some 2, capacidad_maxima := some 4,
          precio_huesped_adicional := some 10000, permite_reservas_por_horas := false,
          precio_base_hora := none }
        (some 3) "tiempo_predefinido" 1440 "n1"
      = .ok { montoEstanciaBase := 60000,
              montoPorHuespedesAdicionales :=
                ((3 - toNumber (some 2) : Int) : ℚ) * orZero (some 10000) } :=
  ⟨(calculateMontos_extra_predefinido_factor_uno
      [{ id := "n1", nombre := "Noche", minutos := some 1440, precio := some 60000 }]
      { precio := some 50000, capacidad_base := some 2, capacidad_maxima := some 4,
        precio_huesped_adicional := some 10000, permite_reservas_por_horas := false,
        precio_base_hora := none }
      3 1440 "n1"
      { id := "n1", nombre := "Noche", minutos := some 1440, precio := some 60000 }
      (by decide) rfl (by decide) (by decide)).1 1560 (by decide) (by decide),
   (calculateMontos_extra_predefinido_factor_uno
      [{ id := "n1", nombre := "Noche", minutos := some 1440, precio := some 60000 }]
      { precio := some 50000, capacidad_base := some 2, capacidad_maxima := some 4,
        precio_huesped_adicional := some 10000, permite_reservas_por_horas := false,
        precio_base_hora := none }
      3 1440 "n1"
      { id := "n1", nombre := "Noche", minutos := some 1440, precio := some 60000 }
      (by decide) rfl (by decide) (by decide)).2.2.1 60000 rfl (by decide)⟩

/-! ## Theorems: create, cancel, create -/

/-- The room state read after `createBooking`, when the insert and the room
update are accepted: 'reservada' for a room of the reservation that was
'libre', the state before otherwise. -/
theorem estadoHabitacion_createBooking (env : Entorno) (state : State) (sb : Backend)
    (store : Store) (p : Payload) (id : String)
    (hins : sb.falla .insertReserva = false) (hupd : sb.falla .updateHabitacion = false) :
    estadoHabitacion (createBooking env state sb store p).2 id
      = (store.habitaciones.find? fun h => h.id == id).map fun h =>
          if h.id == p.datosReserva.habitacion_id && h.estado == "libre" then "reservada"
          else h.estado := by
  unfold estadoHabitacion
  rw [createBooking_habitaciones env state sb store p hins, hupd]
  simp only [Bool.false_eq_true, if_false]
  rw [find_habitacion_map _ _ (by intro h; split <;> rfl)]
  cases store.habitaciones.find? fun h => h.id == id with
  | none => rfl
  | some h =>
    simp only [Option.map_some']
    split <;> rfl

/-- The cancel action when both updates are accepted and the overlap authority
does not report a conflict: the reservation gets the status 'cancelada', every
row of its room gets the state 'disponible', and the plain success message is
shown. -/
theorem handleListActions_cancelar_sin_cruce (sb : Backend) (store : Store)
    (feedback : Feedback) (reservaId habitacionIdReserva : String) (fila : Reserva)
    (hf : sb.falla .updateReserva = false) (hu : sb.falla .updateHabitacion = false)
    (hrow : single (store.reservas.filter fun r => r.id == reservaId) = some fila)
    (hc : (sb.validar_cruce_reserva (updateEstadoReserva store reservaId "cancelada")
      habitacionIdReserva fila.datos.fecha_inicio fila.datos.fecha_fin (some reservaId)).data
      ≠ some true) :
    handleListActions sb store feedback .cancelar reservaId habitacionIdReserva
      = ({ updateEstadoReserva store reservaId "cancelada" with
           habitaciones := (updateEstadoReserva store reservaId "cancelada").habitaciones.map
             fun h => if h.id == habitacionIdReserva then { h with estado := "disponible" }
               else h },
         .exitoEstado "cancelada" false) := by
  have hne : ("disponible" : String) ≠ "" := by decide
  have hc2 : ((sb.validar_cruce_reserva (updateEstadoReserva store reservaId "cancelada")
      habitacionIdReserva fila.datos.fecha_inicio fila.datos.fecha_fin (some reservaId)).data
      == some true) = false := by
    simpa using hc
  unfold handleListActions handleUpdateEstadoReserva
  simp only [hf, hu, Bool.false_eq_true, if_false, hrow, if_true, hc, hc2, hne, or_self,
    Bool.and_false]

/-- The room state read after every row of the room `hab` got the state
`estado`. -/
theorem estadoHabitacion_escribir (store : Store) (hab estado id : String) :
    estadoHabitacion
        { store with
          habitaciones := store.habitaciones.map fun h =>
            if h.id == hab then { h with estado := estado } else h } id
      = (store.habitaciones.find? fun h => h.id == id).map fun h =>
          if h.id == hab then estado else h.estado := by
  unfold estadoHabitacion
  simp only
  rw [find_habitacion_map _ _ (by intro h; split <;> rfl)]
  cases store.habitaciones.find? fun h => h.id == id with
  | none => rfl
  | some h =>
    simp only [Option.map_some']
    split <;> rfl

/-- A room state that is read comes from a row with that id and that state. -/
theorem estadoHabitacion_eq_some {store : Store} {id e : String}
    (h : estadoHabitacion store id = some e) :
    ∃ fila, (store.habitaciones.find? fun x => x.id == id) = some fila
      ∧ fila.id = id ∧ fila.estado = e := by
  unfold estadoHabitacion at h
  cases hfind : store.habitaciones.find? fun x => x.id == id with
  | none => simp [hfind] at h
  | some fila =>
    refine ⟨fila, rfl, ?_, ?_⟩
    · simpa using List.find?_some hfind
    · simpa [hfind] using h

/-- C21: for a room `hab` initially 'libre' and a backend that accepts the
requests, let `s1` be the store after `createBooking` of a reservation of that
room, `s2` the store after the cancel action on that reservation when the
overlap authority reports no conflict, and `s3` the store after a second
`createBooking` (of any payload, in particular one for the same room).  The
room is 'reservada' in `s1`, the
cancel writes 'disponible', and since the conditional update of `createBooking`
fires only on 'libre', the room is still 'disponible', not 'reservada', in
`s3`. -/
theorem crear_cancelar_crear_deja_disponible (env : Entorno) (state : State) (sb : Backend)
    (store s1 s2 s3 : Store) (p1 p2 : Payload) (hab : String)
    (hins : sb.falla .insertReserva = false)
    (hupdR : sb.falla .updateReserva = false)
    (hupdH : sb.falla .updateHabitacion = false)
    (hp1 : p1.datosReserva.habitacion_id = hab)
    (hlibre : estadoHabitacion store hab = some "libre")
    (hnuevo : ∀ r ∈ store.reservas, r.id ≠ sb.nuevoId store)
    (h1 : s1 = (createBooking env state sb store p1).2)
    (h2 : s2 = (handleListActions sb s1 .vacio .cancelar (sb.nuevoId store) hab).1)
    (h3 : s3 = (createBooking env state sb s2 p2).2)
    (hcruce : (sb.validar_cruce_reserva (updateEstadoReserva s1 (sb.nuevoId store) "cancelada")
      hab p1.datosReserva.fecha_inicio p1.datosReserva.fecha_fin
      (some (sb.nuevoId store))).data ≠ some true) :
    estadoHabitacion s1 hab = some "reservada" ∧
    estadoHabitacion s2 hab = some "disponible" ∧
    estadoHabitacion s3 hab = some "disponible" ∧
    estadoHabitacion s3 hab ≠ some "reservada" := by
  have e1 : estadoHabitacion s1 hab = some "reservada" := by
    obtain ⟨fila, hfind, hid, hes⟩ := estadoHabitacion_eq_some hlibre
    rw [h1, estadoHabitacion_createBooking env state sb store p1 hab hins hupdH, hfind]
    simp [hid, hes, hp1]
  have hrow : single (s1.reservas.filter fun r => r.id == sb.nuevoId store)
      = some { id := sb.nuevoId store, datos := p1.datosReserva } := by
    have hnil : store.reservas.filter (fun r => r.id == sb.nuevoId store) = [] := by
      rw [List.filter_eq_nil_iff]
      intro r hr
      simpa using hnuevo r hr
    rw [h1, (createBooking_reservas env state sb store p1 hins).2, List.filter_append, hnil]
    simp [List.filter_cons, single]
  have hs2 : s2 = { updateEstadoReserva s1 (sb.nuevoId store) "cancelada" with
      habitaciones := (updateEstadoReserva s1 (sb.nuevoId store) "cancelada").habitaciones.map
        fun h => if h.id == hab then { h with estado := "disponible" } else h } := by
    rw [h2, handleListActions_cancelar_sin_cruce sb s1 .vacio (sb.nuevoId store) hab
      { id := sb.nuevoId store, datos := p1.datosReserva } hupdR hupdH hrow hcruce]
  have e2 : estadoHabitacion s2 hab = some "disponible" := by
    obtain ⟨fila, hfind, hid, -⟩ := estadoHabitacion_eq_some e1
    rw [hs2, estadoHabitacion_escribir]
    have hsame : (updateEstadoReserva s1 (sb.nuevoId store) "cancelada").habitaciones
        = s1.habitaciones := rfl
    rw [hsame, hfind]
    simp [hid]
  have e3 : estadoHabitacion s3 hab = some "disponible" := by
    obtain ⟨fila, hfind, hid, hes⟩ := estadoHabitacion_eq_some e2
    have hno : ("disponible" : String) ≠ "libre" := by decide
    rw [h3, estadoHabitacion_createBooking env state sb s2 p2 hab hins hupdH, hfind]
    simp [hes, hno]
  refine ⟨e1, e2, e3, ?_⟩
  rw [e3]
  decide

/-- C21 (witness): the example request is created on the example store, whose
room is 'libre', cancelled, and created again. -/
theorem crear_cancelar_crear_deja_disponible_witness :
    estadoHabitacion storeEjemplo "hab1" = some "libre" ∧
    estadoHabitacion
        (createBooking entornoEjemplo stateEjemplo backendEjemplo storeEjemplo payloadEjemplo).2
        "hab1" = some "reservada" ∧
    estadoHabitacion
        (handleListActions backendEjemplo
          (createBooking entornoEjemplo stateEjemplo backendEjemplo storeEjemplo
            payloadEjemplo).2
          .vacio .cancelar (backendEjemplo.nuevoId storeEjemplo) "hab1").1
        "hab1" = some "disponible" ∧
    estadoHabitacion
        (createBooking entornoEjemplo stateEjemplo backendEjemplo
          (handleListActions backendEjemplo
            (createBooking entornoEjemplo stateEjemplo backendEjemplo storeEjemplo
              payloadEjemplo).2
            .vacio .cancelar (backendEjemplo.nuevoId storeEjemplo) "hab1").1
          payloadEjemplo).2
        "hab1" = some "disponible" :=
  ⟨by decide,
   (crear_cancelar_crear_deja_disponible entornoEjemplo stateEjemplo backendEjemplo storeEjemplo
      _ _ _ payloadEjemplo payloadEjemplo "hab1" rfl rfl rfl rfl (by decide) (by decide)
      rfl rfl rfl (by decide)).1,
   (crear_cancelar_crear_deja_disponible entornoEjemplo stateEjemplo backendEjemplo storeEjemplo
      _ _ _ payloadEjemplo payloadEjemplo "hab1" rfl rfl rfl rfl (by decide) (by decide)
      rfl rfl rfl (by decide)).2.1,
   (crear_cancelar_crear_deja_disponible entornoEjemplo stateEjemplo backendEjemplo storeEjemplo
      _ _ _ payloadEjemplo payloadEjemplo "hab1" rfl rfl rfl rfl (by decide) (by decide)
      rfl rfl rfl (by decide)).2.2.1⟩

end Reservas
